import Mathlib

/-!
Verification of the pacium court-reservation engine.

This file shallowly embeds the Python sources (courts.py, times.py,
players.py, paccontrol.py) and proves properties of the embedded code.
Selenium/web-driver effects are abstracted: every page query or click is
modelled either by an environment function (e.g. per-slot availability) or
by an injected success/failure flag, and the sequence of page actions a run
performs is recorded as an explicit trace.
-/

namespace Pacium

/-- Python datetime.time value (hour, minute, second).  Microseconds are not
modelled: the JSON decoder in this program only ever builds times with zero
microseconds, and the save format drops sub-minute fields. -/
structure PyTime where
  hour : Nat
  minute : Nat
  second : Nat
deriving DecidableEq, Repr

/-- Validity of a Python datetime.time value (its constructor enforces this). -/
def PyTime.Valid (t : PyTime) : Prop :=
  t.hour < 24 ∧ t.minute < 60 ∧ t.second < 60

instance (t : PyTime) : Decidable t.Valid := by
  unfold PyTime.Valid; infer_instance

/-- courts.py Court: details of a tennis court. -/
structure Court where
  name : String
  tId : String
deriving DecidableEq, Repr

/-- times.py CourtTime: a desired court time (start time of day and duration
in minutes; the Python field is an unrestricted int). -/
structure CourtTime where
  startTime : PyTime
  duration : Int
deriving DecidableEq, Repr

/-- players.py User: details of a person. -/
structure User where
  nickname : String
  username : String
deriving DecidableEq, Repr

/-- courts.py Courts: our tennis courts in preferred order. -/
structure Courts where
  courtsInPreferredOrder : List Court
deriving DecidableEq, Repr

/-- times.py CourtTimes: our court times in preferred order. -/
structure CourtTimes where
  timesInPreferredOrder : List CourtTime
deriving DecidableEq, Repr

/-- players.py Players: the players and the shared password. -/
structure Players where
  people : List User
  password : String
deriving DecidableEq, Repr

/-! ## Calendar arithmetic and strftime renderings

Dates are represented by their proleptic-Gregorian ordinal, exactly
Python's date.toordinal() (ordinal 1 = 0001-01-01).  Datetimes are seconds
since 0001-01-01 00:00:00. -/

/-- date.weekday(): Monday = 0.  Ordinal 1 (0001-01-01) is a Monday. -/
def pyWeekday (o : Nat) : Nat := (o + 6) % 7

/-- Convert a date ordinal to (year, month, day) by the standard era-based
civil-from-days computation, shifted so every intermediate stays in Nat:
shifted day 0 is 0000-03-01, so ordinal o becomes shifted day o + 305. -/
def civilFromOrdinal (o : Nat) : Nat × Nat × Nat :=
  let days := o + 305
  let era := days / 146097
  let doe := days % 146097
  let yoe := (doe - doe / 1460 + doe / 36524 - doe / 146096) / 365
  let doy := doe - (365 * yoe + yoe / 4 - yoe / 100)
  let mp := (5 * doy + 2) / 153
  let d := doy - (153 * mp + 2) / 5 + 1
  let m := if mp < 10 then mp + 3 else mp - 9
  (if m ≤ 2 then yoe + era * 400 + 1 else yoe + era * 400, m, d)

/-- C-locale abbreviated weekday names, Monday first (tm_wday order). -/
def dayAbbrevs : List String := ["Mon", "Tue", "Wed", "Thu", "Fri", "Sat", "Sun"]

/-- C-locale abbreviated month names. -/
def monthAbbrevs : List String :=
  ["Jan", "Feb", "Mar", "Apr", "May", "Jun", "Jul", "Aug", "Sep", "Oct", "Nov", "Dec"]

/-- The decimal digit character for d < 10. -/
def digitCh (d : Nat) : Char := Char.ofNat (48 + d)

/-- Zero-padded two-digit decimal rendering (for n < 100). -/
def pad2 (n : Nat) : String := String.mk [digitCh (n / 10), digitCh (n % 10)]

/-- strftime "%a %b %d %Y %H:%M:%S " on a datetime in seconds since
0001-01-01 00:00:00 — the schedule start-token rendering of
CourtTime.getStartTimesForDate, e.g. "Wed Aug 24 2022 09:00:00 ". -/
def renderStartToken (t : Nat) : String :=
  let o := t / 86400 + 1
  let secs := t % 86400
  let ymd := civilFromOrdinal o
  dayAbbrevs.getD (pyWeekday o) "" ++ " " ++ monthAbbrevs.getD (ymd.2.1 - 1) "" ++ " "
    ++ pad2 ymd.2.2 ++ " " ++ toString ymd.1 ++ " "
    ++ pad2 (secs / 3600) ++ ":" ++ pad2 (secs % 3600 / 60) ++ ":" ++ pad2 (secs % 60) ++ " "

/-- strftime CourtTime.DT_FORMAT = "%I:%M %p %a %b %d, %Y" on a datetime in
seconds since 0001-01-01 00:00:00, e.g. "09:00 AM Wed Aug 24, 2022". -/
def renderDtFormat (t : Nat) : String :=
  let o := t / 86400 + 1
  let secs := t % 86400
  let h := secs / 3600
  let ymd := civilFromOrdinal o
  pad2 (if h % 12 = 0 then 12 else h % 12) ++ ":" ++ pad2 (secs % 3600 / 60) ++ " "
    ++ (if h < 12 then "AM" else "PM") ++ " "
    ++ dayAbbrevs.getD (pyWeekday o) "" ++ " " ++ monthAbbrevs.getD (ymd.2.1 - 1) "" ++ " "
    ++ pad2 ymd.2.2 ++ ", " ++ toString ymd.1

/-- datetime.combine(dt, tm) as seconds since 0001-01-01 00:00:00, where dt
is a date ordinal (Python ordinals are always ≥ 1). -/
def combineSecs (dt : Nat) (tm : PyTime) : Nat :=
  (dt - 1) * 86400 + tm.hour * 3600 + tm.minute * 60 + tm.second

/-! ## times.py -/

/-- The while-loop of CourtTime.getStartTimesForDate: starting from rTime
(seconds), append the rendered start token and advance THIRTY_MINUTES while
rTime < endTime.  endTime is an Int because the duration field may be any
Python int. -/
def startTokensLoop (rTime : Nat) (endTime : Int) : List String :=
  if (rTime : Int) < endTime then
    renderStartToken rTime :: startTokensLoop (rTime + 1800) endTime
  else []
termination_by (endTime - rTime).toNat
decreasing_by
  omega

/-- CourtTime.getStartTimesForDate: the start-timestamp portions of the
schedule-table CSS selectors for a concrete date. -/
def CourtTime.getStartTimesForDate (ct : CourtTime) (dt : Nat) : List String :=
  startTokensLoop (combineSecs dt ct.startTime)
    ((combineSecs dt ct.startTime : Int) + ct.duration * 60)

/-- CourtTime.strWithDate: the display rendering (DT_FORMAT) of the court
time combined with a concrete date. -/
def CourtTime.strWithDate (ct : CourtTime) (dt : Nat) : String :=
  renderDtFormat (combineSecs dt ct.startTime)

/-- ASCII lower-casing of one character (locale-independent, as strptime's
case folding behaves for the C locale). -/
def lowerAscii (c : Char) : Char :=
  if c.toNat ≥ 65 ∧ c.toNat ≤ 90 then Char.ofNat (c.toNat + 32) else c

/-- ASCII lower-casing of a string. -/
def strLowerAscii (s : String) : String := String.mk (s.data.map lowerAscii)

/-- time.strptime(dayOfWeekArg, "%a").tm_wday: parse a C-locale weekday
abbreviation, case-insensitively; Monday = 0. -/
def parseDayAbbrev (s : String) : Option (Fin 7) :=
  match strLowerAscii s with
  | "mon" => some 0
  | "tue" => some 1
  | "wed" => some 2
  | "thu" => some 3
  | "fri" => some 4
  | "sat" => some 5
  | "sun" => some 6
  | _ => none

/-- CourtTimes.nextDateForDay with date.today() made an explicit ordinal
parameter.  Returns the chosen date's ordinal, or the ValueError message for
an invalid abbreviation (the source re-raises ValueError with this text). -/
def CourtTimes.nextDateForDay (today : Nat) (dayOfWeekArg : String) : Except String Nat :=
  match parseDayAbbrev dayOfWeekArg with
  | none => .error ("Invalid day of week abbreviation [" ++ dayOfWeekArg ++ "]")
  | some w =>
    let daysFromToday : Int := (((w : Nat) : Int) - (pyWeekday today : Int)) % 7
    if daysFromToday = 0 then .ok today else .ok (today + daysFromToday.toNat)



/-! ## JSON save/load layer (courts.py, times.py, players.py)

The decoders are the object_hook functions passed to json.load; Python
applies an object hook to every JSON object bottom-up.  The text layer
(json.dump followed by the json parser) is the standard library, external
to this repository, and is modelled as the identity on the JSON structure;
what is embedded is exactly the repository's dict construction in the save
methods and the three decode hooks. -/

/-- Python runtime values occurring on this program's JSON load/save paths:
JSON primitives, lists, insertion-ordered dicts, datetime.time objects, and
the dynamically-built NamedTuple objects (whose fields are raw values,
because Python imposes no types on _make). -/
inductive PyVal where
  | vnone
  | vbool (b : Bool)
  | vint (n : Int)
  | vstr (s : String)
  | vlist (xs : List PyVal)
  | vdict (kvs : List (String × PyVal))
  | vtime (t : PyTime)
  | vcourt (name tId : PyVal)
  | vcourts (courtsList : PyVal)
  | vcourtTime (startTime duration : PyVal)
  | vcourtTimes (timesList : PyVal)
  | vuser (nickname username : PyVal)
  | vplayers (people password : PyVal)

/-- Python exceptions relevant to the embedded code paths. -/
inductive PyErr where
  | pacException (msg : String)
  | indexError
  | typeError
  | valueError
  | fuelExhausted
deriving DecidableEq, Repr

/-- Keys of a decoded JSON object, in insertion order. -/
def keysOf (kvs : List (String × PyVal)) : List String := kvs.map Prod.fst

/-- dict.values() of a decoded JSON object, in insertion order. -/
def valsOf (kvs : List (String × PyVal)) : List PyVal := kvs.map Prod.snd

/-- Numeric value of a digit character. -/
def digitVal (c : Char) : Nat := c.toNat - 48

/-- Core of time.fromisoformat on a character list, restricted to the forms
arising from this program's files: "HH:MM" (what CourtTimes.save writes)
and "HH:MM:SS".  Anything else is a ValueError (none), as are out-of-range
fields (Python's time constructor rejects them). -/
def timeFromIsoData : List Char → Option PyTime
  | [a, b, c0, c, d] =>
    if c0 = ':' ∧ a.isDigit = true ∧ b.isDigit = true ∧ c.isDigit = true ∧ d.isDigit = true then
      let h := digitVal a * 10 + digitVal b
      let m := digitVal c * 10 + digitVal d
      if h < 24 ∧ m < 60 then some ⟨h, m, 0⟩ else none
    else none
  | [a, b, c0, c, d, c1, e, f] =>
    if c0 = ':' ∧ c1 = ':' ∧ a.isDigit = true ∧ b.isDigit = true ∧ c.isDigit = true
        ∧ d.isDigit = true ∧ e.isDigit = true ∧ f.isDigit = true then
      let h := digitVal a * 10 + digitVal b
      let m := digitVal c * 10 + digitVal d
      let sec := digitVal e * 10 + digitVal f
      if h < 24 ∧ m < 60 ∧ sec < 60 then some ⟨h, m, sec⟩ else none
    else none
  | _ => none

/-- time.fromisoformat (restricted as documented on timeFromIsoData). -/
def timeFromIso (s : String) : Option PyTime := timeFromIsoData s.data

/-- time.isoformat(timespec="minutes"): "HH:MM", dropping any seconds. -/
def PyTime.isoformatMinutes (t : PyTime) : String := pad2 t.hour ++ ":" ++ pad2 t.minute

/-- courts.py decodeCourts: the object hook for Courts JSON.  A dict whose
keys include Court's fields becomes Court._make(values()); else a dict with
Courts' field becomes Courts._make(values()); else the dict passes through.
_make takes the values positionally and raises TypeError on wrong arity. -/
def decodeCourts (kvs : List (String × PyVal)) : Except PyErr PyVal :=
  if "name" ∈ keysOf kvs ∧ "tId" ∈ keysOf kvs then
    match valsOf kvs with
    | [a, b] => .ok (.vcourt a b)
    | _ => .error .typeError
  else if "courtsInPreferredOrder" ∈ keysOf kvs then
    match valsOf kvs with
    | [a] => .ok (.vcourts a)
    | _ => .error .typeError
  else .ok (.vdict kvs)

/-- times.py decodeCourtTimes: the object hook for CourtTimes JSON.  The
CourtTime branch looks the two fields up by key and parses startTime with
time.fromisoformat (TypeError on a non-string, ValueError on a bad form). -/
def decodeCourtTimes (kvs : List (String × PyVal)) : Except PyErr PyVal :=
  if "startTime" ∈ keysOf kvs ∧ "duration" ∈ keysOf kvs then
    match List.lookup "startTime" kvs, List.lookup "duration" kvs with
    | some (.vstr s), some dur =>
      match timeFromIso s with
      | some t => .ok (.vcourtTime (.vtime t) dur)
      | none => .error .valueError
    | some _, some _ => .error .typeError
    | _, _ => .error .typeError
  else if "timesInPreferredOrder" ∈ keysOf kvs then
    match valsOf kvs with
    | [a] => .ok (.vcourtTimes a)
    | _ => .error .typeError
  else .ok (.vdict kvs)

/-- players.py decodePlayers: the object hook for Players JSON. -/
def decodePlayers (kvs : List (String × PyVal)) : Except PyErr PyVal :=
  if "nickname" ∈ keysOf kvs ∧ "username" ∈ keysOf kvs then
    match valsOf kvs with
    | [a, b] => .ok (.vuser a b)
    | _ => .error .typeError
  else if "people" ∈ keysOf kvs ∧ "password" ∈ keysOf kvs then
    match valsOf kvs with
    | [a, b] => .ok (.vplayers a b)
    | _ => .error .typeError
  else .ok (.vdict kvs)

mutual

/-- json.load with an object_hook: the hook is applied to every JSON object
bottom-up, exactly as Python's json decoder does. -/
def jsonLoadWith (hook : List (String × PyVal) → Except PyErr PyVal) :
    PyVal → Except PyErr PyVal
  | .vlist xs =>
    match jsonLoadListWith hook xs with
    | .error e => .error e
    | .ok vs => .ok (.vlist vs)
  | .vdict kvs =>
    match jsonLoadKvsWith hook kvs with
    | .error e => .error e
    | .ok kvs' => hook kvs'
  | v => .ok v

/-- Hook-decoding of the elements of a JSON array. -/
def jsonLoadListWith (hook : List (String × PyVal) → Except PyErr PyVal) :
    List PyVal → Except PyErr (List PyVal)
  | [] => .ok []
  | x :: xs =>
    match jsonLoadWith hook x with
    | .error e => .error e
    | .ok v =>
      match jsonLoadListWith hook xs with
      | .error e => .error e
      | .ok vs => .ok (v :: vs)

/-- Hook-decoding of the values of a JSON object. -/
def jsonLoadKvsWith (hook : List (String × PyVal) → Except PyErr PyVal) :
    List (String × PyVal) → Except PyErr (List (String × PyVal))
  | [] => .ok []
  | (k, v) :: kvs =>
    match jsonLoadWith hook v with
    | .error e => .error e
    | .ok v' =>
      match jsonLoadKvsWith hook kvs with
      | .error e => .error e
      | .ok kvs' => .ok ((k, v') :: kvs')

end

/-- court._asdict(): the dict Courts.save writes for one court. -/
def Court.asDict (c : Court) : PyVal :=
  .vdict [("name", .vstr c.name), ("tId", .vstr c.tId)]

/-- The JSON structure Courts.save writes. -/
def Courts.savedJson (cs : Courts) : PyVal :=
  .vdict [("courtsInPreferredOrder", .vlist (cs.courtsInPreferredOrder.map Court.asDict))]

/-- The dict CourtTimes.save writes for one court time. -/
def CourtTime.savedDict (ct : CourtTime) : PyVal :=
  .vdict [("startTime", .vstr ct.startTime.isoformatMinutes), ("duration", .vint ct.duration)]

/-- The JSON structure CourtTimes.save writes. -/
def CourtTimes.savedJson (ts : CourtTimes) : PyVal :=
  .vdict [("timesInPreferredOrder", .vlist (ts.timesInPreferredOrder.map CourtTime.savedDict))]

/-- user._asdict(): the dict Players.save writes for one person. -/
def User.asDict (u : User) : PyVal :=
  .vdict [("nickname", .vstr u.nickname), ("username", .vstr u.username)]

/-- The JSON structure Players.save writes. -/
def Players.savedJson (ps : Players) : PyVal :=
  .vdict [("people", .vlist (ps.people.map User.asDict)), ("password", .vstr ps.password)]

/-- The Python value a well-typed Court corresponds to. -/
def Court.toPy (c : Court) : PyVal := .vcourt (.vstr c.name) (.vstr c.tId)

/-- The Python value a well-typed Courts corresponds to. -/
def Courts.toPy (cs : Courts) : PyVal :=
  .vcourts (.vlist (cs.courtsInPreferredOrder.map Court.toPy))

/-- The Python value a well-typed CourtTime corresponds to. -/
def CourtTime.toPy (ct : CourtTime) : PyVal :=
  .vcourtTime (.vtime ct.startTime) (.vint ct.duration)

/-- The Python value a well-typed CourtTimes corresponds to. -/
def CourtTimes.toPy (ts : CourtTimes) : PyVal :=
  .vcourtTimes (.vlist (ts.timesInPreferredOrder.map CourtTime.toPy))

/-- The Python value a well-typed User corresponds to. -/
def User.toPy (u : User) : PyVal := .vuser (.vstr u.nickname) (.vstr u.username)

/-- The Python value a well-typed Players corresponds to. -/
def Players.toPy (ps : Players) : PyVal :=
  .vplayers (.vlist (ps.people.map User.toPy)) (.vstr ps.password)


/-! ## Slot search (paccontrol.py findFirstAvailableCourt) -/

/-- paccontrol.py CourtAndTime: the chosen court, its window, and the first
sub-slot's start token. -/
structure CourtAndTime where
  court : Court
  courtTime : CourtTime
  startTime : String
deriving DecidableEq, Repr

/-- PacControl.NO_COURTS_MSG. -/
def NO_COURTS_MSG : String := "No available courts found"

/-- The outer loop of PacControl.findFirstAvailableCourt over the preferred
times.  The inner for-loop over the preferred courts returns the first court
whose sub-slots are all available (List.find? with the all-availability
test); blockAvailable, a webdriver query, is abstracted as avail.
startTimes[0] on an empty sub-slot list is Python's IndexError. -/
def findFirstAvailableCourtGo (avail : Court → String → Bool) (courts : List Court)
    (dt : Nat) : List CourtTime → Except PyErr CourtAndTime
  | [] => .error (.pacException NO_COURTS_MSG)
  | courtTime :: rest =>
    let startTimes := courtTime.getStartTimesForDate dt
    match courts.find? (fun court => startTimes.all (avail court)) with
    | some court =>
      match startTimes with
      | [] => .error .indexError
      | s0 :: _ => .ok ⟨court, courtTime, s0⟩
    | none => findFirstAvailableCourtGo avail courts dt rest

/-- PacControl.findFirstAvailableCourt over the preference lists and the
request date. -/
def findFirstAvailableCourt (avail : Court → String → Bool) (times : List CourtTime)
    (courts : List Court) (dt : Nat) : Except PyErr CourtAndTime :=
  findFirstAvailableCourtGo avail courts dt times

/-- Spec-side reference enumeration (from the spec's words, §4.1): iterate
windowsInPreferredOrder as the outer loop and resourcesInPreferredOrder as
the inner loop, window-major. -/
def windowMajorPairs (times : List CourtTime) (courts : List Court) :
    List (CourtTime × Court) :=
  times.flatMap (fun t => courts.map (fun c => (t, c)))

/-- Spec-side reference definition (from the spec's words, §4.1), to be
compared with the source's findFirstAvailableCourt: return the first
(window, court) pair in window-major order all of whose derived sub-slots
are available; if none qualifies, signal NotFound with the "No available
courts found" message. -/
def findAvailableSpec (avail : Court → String → Bool) (times : List CourtTime)
    (courts : List Court) (dt : Nat) : Except PyErr CourtAndTime :=
  match (windowMajorPairs times courts).find?
      (fun p => ((p.1.getStartTimesForDate dt).all (avail p.2))) with
  | some p => .ok ⟨p.2, p.1, (p.1.getStartTimesForDate dt).headD ""⟩
  | none => .error (.pacException NO_COURTS_MSG)

/-! ## Reservation workflow (paccontrol.py)

The workflow is embedded as a computation over the mutable PacControl
fields, recording every page interaction in a trace.  Port behaviour
(availability answers, element-lookup failures, error dialogs) is injected
through an environment. -/

/-- One recorded page interaction. -/
inductive PacAction where
  | logInAct
  | logOutAct
  | advanceDay
  | clickBlock (courtName startTime : String)
  | setParams
  | keyIn (playerName : String)
  | addName (playerName : String)
  | confirmClick
  | inspectConfirm
  | dismissError (text : String)
  | cancelClick
deriving DecidableEq, Repr

/-- The mutable PacControl fields the reservation flow reads and writes.
resFormOpen models resForm being non-None (an in-flight, unconfirmed
reservation); logOutHrefSet models logOutHref being non-None (an open,
logged-in session); playerQueue models the rest of the playerItr iterator. -/
structure PacState where
  resFormOpen : Bool
  logOutHrefSet : Bool
  found : Option CourtAndTime
  playerHasAlreadyReserved : Bool
  playerQueue : List User
  player2 : Option String
deriving DecidableEq, Repr

/-- A web-interaction computation: from a PacState it yields a result or a
raised exception, the updated state, and the trace of page actions. -/
def PacM (α : Type) : Type := PacState → Except PyErr α × PacState × List PacAction

instance : Monad PacM where
  pure a := fun s => (.ok a, s, [])
  bind x f := fun s =>
    match x s with
    | (.ok a, s1, t1) =>
      match f a s1 with
      | (r, s2, t2) => (r, s2, t1 ++ t2)
    | (.error e, s1, t1) => (.error e, s1, t1)

/-- Raise a Python exception. -/
def throwP {α : Type} (e : PyErr) : PacM α := fun s => (.error e, s, [])

/-- Read the current state. -/
def getS : PacM PacState := fun s => (.ok s, s, [])

/-- Update the current state. -/
def modifyS (f : PacState → PacState) : PacM Unit := fun s => (.ok (), f s, [])

/-- Record one page interaction. -/
def emit (a : PacAction) : PacM Unit := fun s => (.ok (), s, [a])

/-- One error window as the page may present it: whether it is displayed,
its text, and whether the attempt to dismiss it raises (click/wait
WebDriverException). -/
structure ErrWin where
  displayed : Bool
  text : String
  dismissFails : Bool
deriving DecidableEq, Repr

/-- Injected page behaviour for one pass of the reservation flow: per-slot
availability plus the outcome of each port call the flow makes.  keyInFails
and lookupResolves are indexed by the attempt number inside selectPlayer. -/
structure PacEnv where
  avail : Court → String → Bool
  selectBlockFails : Bool
  setParamsFails : Bool
  keyInFails : Nat → Bool
  lookupResolves : Nat → Bool
  pickFromListFails : Bool
  confirmClickFails : Bool
  errWins : List ErrWin
  cancelFails : Bool
  logOutFails : Bool

/-- Whether pat occurs as a substring of s (Python's "in" on str). -/
def containsSub (s pat : String) : Bool :=
  s.data.tails.any (fun t => pat.data.isPrefixOf t)

/-- The two dialog texts handleErrorWindow classifies as a participant
conflict (a participant already holds a reservation in/near the window). -/
def isConflictText (t : String) : Bool :=
  containsSub t "requires 1 additional player" || containsSub t "not allowed on this reservation"

/-- PacControl.cancelPendingReservation: click the reset button and wait for
the form to close; only on success is resForm cleared (on failure the
wrapped PacException propagates with resForm still set). -/
def cancelPendingReservation (env : PacEnv) : PacM Unit := do
  emit .cancelClick
  if env.cancelFails then
    throwP (.pacException "Unable to cancel pending reservation, WebDriverException")
  else
    modifyS (fun st => {st with resFormOpen := false})

/-- PacControl.logOut: navigate to the stored log-out href and wait; only on
success is logOutHref cleared. -/
def pacLogOut (env : PacEnv) : PacM Unit := do
  emit .logOutAct
  if env.logOutFails then
    throwP (.pacException "Unable to log out, WebDriverException")
  else
    modifyS (fun st => {st with logOutHrefSet := false})

/-- PacControl.logIn, reduced to its state effects: it builds playerItr over
all people and consumes the first entry (the "self" account used to
authenticate), leaving people[1..] in the queue, and stores the log-out
href. -/
def pacLogIn (ps : Players) : PacM Unit := do
  emit .logInAct
  modifyS (fun st => {st with playerQueue := ps.people.drop 1, logOutHrefSet := true})

/-- Python try/finally: run the body, then always run the finaliser; an
exception from the finaliser replaces the body's outcome, otherwise the
body's outcome stands. -/
def tryFinallyM (body finaliser : PacM Unit) : PacM Unit := fun s =>
  match body s with
  | (rb, s1, t1) =>
    match finaliser s1 with
    | (rf, s2, t2) =>
      ((match rf with | .error e => .error e | .ok _ => rb), s2, t1 ++ t2)

/-- PacControl.__exit__: inside a try, cancel the pending reservation if the
form is still open; in the finally, log out if still logged in. -/
def pacExit (env : PacEnv) : PacM Unit :=
  tryFinallyM
    (do
      let st ← getS
      if st.resFormOpen then cancelPendingReservation env else pure ())
    (do
      let st ← getS
      if st.logOutHrefSet then pacLogOut env else pure ())

/-- The context-manager protocol of "with self": run the body, then run
__exit__ no matter how the body finished; __exit__ returns None (falsy), so
a body exception propagates afterwards, and an exception from __exit__
itself replaces it. -/
def withSelf (env : PacEnv) (body : PacM Unit) : PacM Unit := fun s =>
  match body s with
  | (rb, s1, t1) =>
    match pacExit env s1 with
    | (re, s2, t2) =>
      ((match re with | .error e => .error e | .ok _ => rb), s2, t1 ++ t2)

/-- The for-loop of PacControl.handleErrorWindow: for each displayed error
window, read its text, dismiss it, and either (participant-conflict text)
set playerHasAlreadyReserved and cancel the pending reservation, or collect
the text; after the loop, raise with the collected texts joined by "; ". -/
def handleErrWins (env : PacEnv) (unableMsg : String) :
    List ErrWin → List String → PacM Unit
  | [], msgs =>
    if msgs.isEmpty then pure ()
    else throwP (.pacException ("Unable to " ++ unableMsg ++ " due to: "
      ++ String.intercalate "; " msgs))
  | w :: ws, msgs =>
    if w.displayed then do
      emit (.dismissError w.text)
      if w.dismissFails then
        throwP (.pacException ("Unable to dismiss error: " ++ w.text
          ++ ", WebDriverException"))
      else if isConflictText w.text then do
        modifyS (fun st => {st with playerHasAlreadyReserved := true})
        cancelPendingReservation env
        handleErrWins env unableMsg ws msgs
      else handleErrWins env unableMsg ws (msgs ++ [w.text])
    else handleErrWins env unableMsg ws msgs

/-- PacControl.handleErrorWindow on the windows the page currently shows. -/
def handleErrorWindow (env : PacEnv) (unableMsg : String) : PacM Unit :=
  handleErrWins env unableMsg env.errWins []

/-- The retry loop of PacControl.selectPlayer, counted by attempts left (the
source counts retrys upward and re-raises on the check (retrys := retrys+1)
== 3, so exactly 3 wait-for-name attempts run; attemptsLeft = 3 - retrys).
Each attempt keys the name in; if the dropdown resolves the name it is
clicked (selectDesiredItem; if that scan misses the exact text, the source
raises the non-retried PacException "Unable to find player ..."); a timeout
on the last attempt re-raises and is wrapped "Unable to find player, ...". -/
def selectPlayerLoop (env : PacEnv) (playerName : String) : Nat → PacM Unit
  | 0 =>
    throwP (.pacException ("Unable to find player, TimeoutException: Timed out waiting for "
      ++ playerName ++ " in list"))
  | aLeft + 1 => do
    emit (.keyIn playerName)
    if env.keyInFails (2 - aLeft) then
      throwP (.pacException "Unable to key-in player for reservation, WebDriverException")
    else if env.lookupResolves (2 - aLeft) then
      if env.pickFromListFails then
        throwP (.pacException ("Unable to find player " ++ playerName))
      else emit (.addName playerName)
    else if aLeft = 0 then
      throwP (.pacException ("Unable to find player, TimeoutException: Timed out waiting for "
        ++ playerName ++ " in list"))
    else selectPlayerLoop env playerName aLeft

/-- PacControl.selectPlayer: up to 3 attempts. -/
def selectPlayer (env : PacEnv) (playerName : String) : PacM Unit :=
  selectPlayerLoop env playerName 3

/-- PacControl.addPlayer: take the next candidate from playerItr (raising
the "Need another player" PacException when exhausted), clear the
conflicted flag, select the candidate in the owners dropdown, and record
the co-player's nickname. -/
def addPlayer (env : PacEnv) : PacM Unit := do
  let st ← getS
  match st.playerQueue with
  | [] => throwP (.pacException "Need another player for reservation")
  | p :: rest => do
    modifyS (fun s => {s with playerQueue := rest, playerHasAlreadyReserved := false})
    selectPlayer env p.username
    modifyS (fun s => {s with player2 := some p.nickname})

/-- The static preference data of a run (PacControl fields set in __init__). -/
structure PacRunConfig where
  courts : List Court
  times : List CourtTime
  requestDate : Nat
  testMode : Bool

/-- PacControl.selectAvailableCourt: run the search (its PacException
propagates), click the found block, and on success hold the opened
reservation form. -/
def selectAvailableCourt (cfg : PacRunConfig) (env : PacEnv) : PacM Unit := do
  match findFirstAvailableCourt env.avail cfg.times cfg.courts cfg.requestDate with
  | .error e => throwP e
  | .ok cat => do
    modifyS (fun s => {s with found := some cat})
    emit (.clickBlock cat.court.name cat.startTime)
    if env.selectBlockFails then
      throwP (.pacException "Unable to select court start time, WebDriverException")
    else
      modifyS (fun s => {s with resFormOpen := true})

/-- PacControl.setReservationParameters: the reservation-type and duration
dropdown interactions, abstracted to one action that may raise. -/
def setReservationParameters (env : PacEnv) : PacM Unit := do
  emit .setParams
  if env.setParamsFails then
    throwP (.pacException "Unable to select reservation type, WebDriverException")
  else pure ()

/-- PacControl.reserveCourt: unless a retry is already pending, either (test
mode) inspect the confirm button, or click it, handle any error window, and
drop the form reference; "Reservation confirmed" is logged when no retry
became pending. -/
def reserveCourt (cfg : PacRunConfig) (env : PacEnv) : PacM Unit := do
  let st ← getS
  if !st.playerHasAlreadyReserved then
    if cfg.testMode then emit .inspectConfirm
    else do
      emit .confirmClick
      if env.confirmClickFails then
        throwP (.pacException "Unable to confirm reservation, WebDriverException")
      else do
        handleErrorWindow env "confirm reservation is good"
        modifyS (fun s => {s with resFormOpen := false})
  else pure ()

/-- One pass of the while-loop body in PacControl.main. -/
def reserveIteration (cfg : PacRunConfig) (env : PacEnv) : PacM Unit := do
  selectAvailableCourt cfg env
  setReservationParameters env
  addPlayer env
  reserveCourt cfg env

/-- The while needsReservation loop of PacControl.main.  The source loop is
unbounded; fuel only bounds the model, and running out of fuel while a
retry is still pending is reported as the artificial fuelExhausted error.
envs gives the page behaviour seen by each successive iteration. -/
def mainReserveLoop (cfg : PacRunConfig) (envs : Nat → PacEnv) :
    Nat → Nat → PacM Unit
  | 0, _ => throwP .fuelExhausted
  | f + 1, i => do
    reserveIteration cfg (envs i)
    let st ← getS
    if st.playerHasAlreadyReserved then mainReserveLoop cfg envs f (i + 1)
    else pure ()

/-! ## navigateToSchedule date-advance loop (paccontrol.py) -/

/-- The while diff loop of PacControl.navigateToSchedule: while the
timedelta diff is nonzero (truthy), click the next-day button and subtract
ONE_DAY.  The source loop is unbounded; fuel only bounds the model, and
none means the loop is still running after fuel iterations.  clicks counts
the date-advance actions issued. -/
def navigateDateLoop (fuel : Nat) (diff : Int) (clicks : Nat) : Option Nat :=
  if diff = 0 then some clicks
  else
    match fuel with
    | 0 => none
    | f + 1 => navigateDateLoop f (diff - 1) (clicks + 1)

/-- The date-advance loop as navigateToSchedule enters it: diff is the
request date minus the displayed schedule date. -/
def navigateAdvanceCount (fuel : Nat) (requestOrd schOrd : Nat) : Option Nat :=
  navigateDateLoop fuel ((requestOrd : Int) - (schOrd : Int)) 0

/-- What claim C6 asserts of one initial displayed date: the date-advance
loop terminates, with iteration count equal to the signed day difference
between the request date and the displayed date. -/
def TerminatesWithSignedCount (requestOrd schOrd : Nat) : Prop :=
  ∃ fuel n, navigateAdvanceCount fuel requestOrd schOrd = some n
    ∧ (n : Int) = (requestOrd : Int) - (schOrd : Int)

/-! ## PacControl.__init__ and getReqSummary (paccontrol.py) -/

/-- The exception one preference-file load may raise. -/
inductive LoadErr where
  | fileNotFound (filename : String)
  | valueErr (args : List String)
deriving DecidableEq, Repr

/-- How __init__'s try/except converts a load exception to PacException. -/
def initLoadErr (cwd : String) : LoadErr → PyErr
  | .fileNotFound fn => .pacException ("Unable to open file " ++ fn ++ " from " ++ cwd ++ ".")
  | .valueErr args => .pacException (String.intercalate ", " args)

/-- The PacControl fields __init__ sets on success. -/
structure PacConfig where
  preferredCourts : Courts
  preferredTimes : CourtTimes
  requestDate : Nat
  players : Players
  showMode : Bool
  testMode : Bool
  player1 : String
deriving DecidableEq, Repr

/-- PacControl.__init__ after argument parsing.  The three loads and
nextDateForDay run inside a try that converts FileNotFoundError and
ValueError into PacException; the subsequent players.people[0] access is
outside that try (and IndexError is not among the handled classes), so an
empty people list raises a bare IndexError. -/
def pacControlInit (cwd : String) (loadCourts : Except LoadErr Courts)
    (loadTimes : Except LoadErr CourtTimes) (today : Nat) (dayOfWeek : String)
    (loadPlayers : Except LoadErr Players) (showMode testMode : Bool) :
    Except PyErr PacConfig :=
  match loadCourts with
  | .error e => .error (initLoadErr cwd e)
  | .ok cs =>
    match loadTimes with
    | .error e => .error (initLoadErr cwd e)
    | .ok ts =>
      match CourtTimes.nextDateForDay today dayOfWeek with
      | .error msg => .error (.pacException msg)
      | .ok rd =>
        match loadPlayers with
        | .error e => .error (initLoadErr cwd e)
        | .ok ps =>
          match ps.people with
          | [] => .error .indexError
          | p0 :: _ => .ok ⟨cs, ts, rd, ps, showMode, testMode, p0.nickname⟩

/-- PacControl.getReqSummary.  The f-string indexes the first preferred
court and then the first preferred time; on an empty list Python raises
IndexError (not a handled PacException).  people[1:] never raises. -/
def getReqSummary (cfg : PacConfig) : Except PyErr String :=
  match cfg.preferredCourts.courtsInPreferredOrder.head? with
  | none => .error .indexError
  | some c0 =>
    match cfg.preferredTimes.timesInPreferredOrder.head? with
    | none => .error .indexError
    | some t0 =>
      .ok ("Requesting " ++ c0.name ++ " at " ++ t0.strWithDate cfg.requestDate
        ++ " for " ++ cfg.player1 ++ " and "
        ++ String.intercalate " or " ((cfg.players.people.drop 1).map User.nickname)
        ++ (if cfg.showMode then " in show mode" else "")
        ++ (if cfg.testMode then " in test mode" else "") ++ ".")

/-! ## Theorems -/

/-- C3: for every valid day-of-week abbreviation, nextDateForDay returns the
next calendar date, today inclusive, whose weekday matches: if today's
weekday matches, today itself is returned (0-day lookahead, never skipped
forward by a full week); for any other valid abbreviation it returns a date
1 to 6 days ahead whose weekday matches. -/
theorem claimC3_nextDateForDay (today : Nat) (s : String) (w : Fin 7)
    (h : parseDayAbbrev s = some w) :
    ∃ d, CourtTimes.nextDateForDay today s = .ok d ∧
      pyWeekday d = (w : Nat) ∧
      today ≤ d ∧ d ≤ today + 6 ∧
      (pyWeekday today = (w : Nat) → d = today) ∧
      (pyWeekday today ≠ (w : Nat) → today + 1 ≤ d ∧ d ≤ today + 6) := by
  have hw7 : (w : Nat) < 7 := w.isLt
  unfold CourtTimes.nextDateForDay
  rw [h]
  simp only [pyWeekday]
  split
  case isTrue h0 =>
    refine ⟨today, rfl, ?_, Nat.le_refl _, by omega, fun _ => rfl, fun hne => ?_⟩
    · omega
    · exact absurd (by omega) hne
  case isFalse h0 =>
    refine ⟨_, rfl, ?_, ?_, ?_, ?_, ?_⟩
    · omega
    · omega
    · omega
    · intro heq; omega
    · intro hne; omega

theorem claimC3_witness :
    parseDayAbbrev "Wed" = some 2 ∧
    (∃ d, CourtTimes.nextDateForDay 738391 "Wed" = .ok d ∧
      pyWeekday d = ((2 : Fin 7) : Nat) ∧
      738391 ≤ d ∧ d ≤ 738391 + 6 ∧
      (pyWeekday 738391 = ((2 : Fin 7) : Nat) → d = 738391) ∧
      (pyWeekday 738391 ≠ ((2 : Fin 7) : Nat) → 738391 + 1 ≤ d ∧ d ≤ 738391 + 6)) :=
  ⟨by decide, claimC3_nextDateForDay 738391 "Wed" 2 (by decide)⟩

/-- Length of the start-token loop: the number of 30-minute steps needed to
cover [rTime, endTime), i.e. max 0 of the ceiling of (endTime - rTime)/1800. -/
theorem startTokensLoop_length (r : Nat) (e : Int) :
    ((startTokensLoop r e).length : Int) = max 0 ((e - r + 1799) / 1800) := by
  induction r, e using startTokensLoop.induct with
  | case1 r e h ih =>
    rw [startTokensLoop, if_pos h]
    simp only [List.length_cons] at *
    push_cast at *
    omega
  | case2 r e h =>
    rw [startTokensLoop, if_neg h]
    simp only [List.length_nil]
    omega

/-- Element i of the start-token loop renders the time 30·i minutes after
rTime. -/
theorem startTokensLoop_get (r : Nat) (e : Int) (i : Nat)
    (hi : i < (startTokensLoop r e).length) :
    (startTokensLoop r e).get ⟨i, hi⟩ = renderStartToken (r + 1800 * i) := by
  induction r, e using startTokensLoop.induct generalizing i with
  | case1 r e h ih =>
    have heq : startTokensLoop r e = renderStartToken r :: startTokensLoop (r + 1800) e := by
      rw [startTokensLoop, if_pos h]
    have hi' : i < (renderStartToken r :: startTokensLoop (r + 1800) e).length := heq ▸ hi
    rw [List.get_of_eq heq]
    rcases i with _ | j
    · simp
    · simp only [List.get_cons_succ]
      rw [ih j (by simpa using hi')]
      congr 1
      ring
  | case2 r e h =>
    have heq : startTokensLoop r e = [] := by rw [startTokensLoop, if_neg h]
    rw [heq] at hi
    simp at hi

/-- C8 (amended: restricted to nonnegative durations; for negative durations
the loop produces no entry while ceil(duration/30) is negative, see the
counterexample): for every CourtTime with nonnegative duration and every
concrete calendar date, the derived sub-slot token sequence is a pure
function of that date with ceil(duration/30) entries, whose i-th entry is
the rendering of startTime on that date advanced by 30·i minutes — so it is
ordered, spaced at the fixed 30-minute granularity, starts at startTime, and
spans exactly [startTime, startTime + duration). -/
theorem claimC8_subslot_sequence (ct : CourtTime) (dt : Nat) (hdur : 0 ≤ ct.duration) :
    ((ct.getStartTimesForDate dt).length : Int) = (ct.duration + 29) / 30 ∧
    ∀ i (hi : i < (ct.getStartTimesForDate dt).length),
      (ct.getStartTimesForDate dt).get ⟨i, hi⟩
        = renderStartToken (combineSecs dt ct.startTime + 1800 * i) := by
  unfold CourtTime.getStartTimesForDate
  constructor
  · rw [startTokensLoop_length]
    omega
  · intro i hi
    exact startTokensLoop_get _ _ i hi

theorem claimC8_witness :
    0 ≤ (90 : Int) ∧
    ((((CourtTime.mk ⟨8, 0, 0⟩ 90).getStartTimesForDate 738391).length : Int)
        = (90 + 29) / 30 ∧
      ∀ i (hi : i < ((CourtTime.mk ⟨8, 0, 0⟩ 90).getStartTimesForDate 738391).length),
        ((CourtTime.mk ⟨8, 0, 0⟩ 90).getStartTimesForDate 738391).get ⟨i, hi⟩
          = renderStartToken (combineSecs 738391 ⟨8, 0, 0⟩ + 1800 * i)) :=
  ⟨by decide, claimC8_subslot_sequence ⟨⟨8, 0, 0⟩, 90⟩ 738391 (by decide)⟩

/-- C8 counterexample: for the (valid Python int) duration -30 the derived
sequence is empty, yet ceil(-30/30) = -1, so the claimed entry count is
wrong for negative durations. -/
theorem claimC8_counterexample :
    (CourtTime.mk ⟨8, 0, 0⟩ (-30)).getStartTimesForDate 738391 = [] ∧
    ((-30 : Int) / 30 = -1) := by
  constructor
  · unfold CourtTime.getStartTimesForDate
    rw [startTokensLoop, if_neg]
    push_cast
    omega
  · decide

theorem digit_roundtrip (x : Nat) (h : x < 10) :
    digitVal (digitCh x) = x ∧ (digitCh x).isDigit = true := by
  interval_cases x <;> exact ⟨by decide, by decide⟩

theorem timeFromIso_isoformatMinutes (t : PyTime) (hv : t.Valid) (hs : t.second = 0) :
    timeFromIso t.isoformatMinutes = some t := by
  obtain ⟨hh, hm, -⟩ := hv
  have e1 := digit_roundtrip (t.hour / 10) (by omega)
  have e2 := digit_roundtrip (t.hour % 10) (by omega)
  have e3 := digit_roundtrip (t.minute / 10) (by omega)
  have e4 := digit_roundtrip (t.minute % 10) (by omega)
  have hh' : t.hour / 10 * 10 + t.hour % 10 = t.hour := by omega
  have hm' : t.minute / 10 * 10 + t.minute % 10 = t.minute := by omega
  have hdata : (PyTime.isoformatMinutes t).data
      = [digitCh (t.hour / 10), digitCh (t.hour % 10), ':',
         digitCh (t.minute / 10), digitCh (t.minute % 10)] := rfl
  unfold timeFromIso
  rw [hdata]
  simp only [timeFromIsoData, e1.1, e1.2, e2.1, e2.2, e3.1, e3.2, e4.1, e4.2, hh', hm']
  simp only [if_pos, hh, hm, and_self, and_true, true_and, if_true]
  cases t with
  | mk h m s =>
    simp only at hs
    simp [hs]

theorem jsonLoad_courtDict (c : Court) :
    jsonLoadWith decodeCourts (Court.asDict c) = .ok (Court.toPy c) := by
  simp [jsonLoadWith, jsonLoadKvsWith, decodeCourts, keysOf, valsOf, Court.asDict, Court.toPy]

theorem jsonLoad_courtList (l : List Court) :
    jsonLoadListWith decodeCourts (l.map Court.asDict) = .ok (l.map Court.toPy) := by
  induction l with
  | nil => simp [jsonLoadListWith]
  | cons c cs ih =>
    simp [jsonLoadListWith, jsonLoad_courtDict c, ih]

theorem jsonLoad_courts (cs : Courts) :
    jsonLoadWith decodeCourts (Courts.savedJson cs) = .ok (Courts.toPy cs) := by
  simp [jsonLoadWith, jsonLoadKvsWith, Courts.savedJson, Courts.toPy,
    jsonLoad_courtList, decodeCourts, keysOf, valsOf]

theorem jsonLoad_courtTimeDict (ct : CourtTime) (hv : ct.startTime.Valid)
    (hs : ct.startTime.second = 0) :
    jsonLoadWith decodeCourtTimes (CourtTime.savedDict ct) = .ok (CourtTime.toPy ct) := by
  simp [jsonLoadWith, jsonLoadKvsWith, decodeCourtTimes, keysOf, valsOf,
    CourtTime.savedDict, CourtTime.toPy, List.lookup,
    timeFromIso_isoformatMinutes ct.startTime hv hs]

theorem jsonLoad_courtTimeList (l : List CourtTime)
    (h : ∀ ct ∈ l, ct.startTime.Valid ∧ ct.startTime.second = 0) :
    jsonLoadListWith decodeCourtTimes (l.map CourtTime.savedDict)
      = .ok (l.map CourtTime.toPy) := by
  induction l with
  | nil => simp [jsonLoadListWith]
  | cons c cs ih =>
    have hc := h c (by simp)
    simp [jsonLoadListWith, jsonLoad_courtTimeDict c hc.1 hc.2,
      ih (fun ct hct => h ct (by simp [hct]))]

theorem jsonLoad_courtTimes (ts : CourtTimes)
    (h : ∀ ct ∈ ts.timesInPreferredOrder, ct.startTime.Valid ∧ ct.startTime.second = 0) :
    jsonLoadWith decodeCourtTimes (CourtTimes.savedJson ts) = .ok (CourtTimes.toPy ts) := by
  simp [jsonLoadWith, jsonLoadKvsWith, CourtTimes.savedJson, CourtTimes.toPy,
    jsonLoad_courtTimeList _ h, decodeCourtTimes, keysOf, valsOf]

theorem jsonLoad_userDict (u : User) :
    jsonLoadWith decodePlayers (User.asDict u) = .ok (User.toPy u) := by
  simp [jsonLoadWith, jsonLoadKvsWith, decodePlayers, keysOf, valsOf, User.asDict, User.toPy]

theorem jsonLoad_userList (l : List User) :
    jsonLoadListWith decodePlayers (l.map User.asDict) = .ok (l.map User.toPy) := by
  induction l with
  | nil => simp [jsonLoadListWith]
  | cons u us ih => simp [jsonLoadListWith, jsonLoad_userDict u, ih]

theorem jsonLoad_players (ps : Players) :
    jsonLoadWith decodePlayers (Players.savedJson ps) = .ok (Players.toPy ps) := by
  simp [jsonLoadWith, jsonLoadKvsWith, Players.savedJson, Players.toPy,
    jsonLoad_userList, decodePlayers, keysOf, valsOf]


/-- C9: for every Courts, CourtTimes, and Players value whose startTime
fields are valid Python times with zero seconds, saving with save and
reading back with the corresponding load returns a value equal to the
original (round-trip identity through the JSON object-hook decoders); the
on-disk text layer is the json standard library, modelled as the identity
on the JSON structure. -/
theorem claimC9_save_load_roundtrip :
    (∀ cs : Courts, jsonLoadWith decodeCourts (Courts.savedJson cs) = .ok (Courts.toPy cs)) ∧
    (∀ ts : CourtTimes,
      (∀ ct ∈ ts.timesInPreferredOrder, ct.startTime.Valid ∧ ct.startTime.second = 0) →
      jsonLoadWith decodeCourtTimes (CourtTimes.savedJson ts) = .ok (CourtTimes.toPy ts)) ∧
    (∀ ps : Players, jsonLoadWith decodePlayers (Players.savedJson ps) = .ok (Players.toPy ps)) :=
  ⟨jsonLoad_courts, jsonLoad_courtTimes, jsonLoad_players⟩

theorem claimC9_witness :
    (∀ ct ∈ (CourtTimes.mk [⟨⟨8, 30, 0⟩, 90⟩]).timesInPreferredOrder,
        ct.startTime.Valid ∧ ct.startTime.second = 0) ∧
    jsonLoadWith decodeCourtTimes (CourtTimes.savedJson (CourtTimes.mk [⟨⟨8, 30, 0⟩, 90⟩]))
      = .ok (CourtTimes.toPy (CourtTimes.mk [⟨⟨8, 30, 0⟩, 90⟩])) :=
  ⟨by decide, claimC9_save_load_roundtrip.2.1 _ (by decide)⟩


/-- Unfolding of bind in the PacM monad. -/
theorem pacBind_eq {α β : Type} (x : PacM α) (f : α → PacM β) (s : PacState) :
    (x >>= f) s = match x s with
      | (.ok a, s1, t1) =>
        match f a s1 with
        | (r, s2, t2) => (r, s2, t1 ++ t2)
      | (.error e, s1, t1) => (.error e, s1, t1) := rfl

/-- A raised exception short-circuits the rest of a PacM computation. -/
theorem pacBind_error {α β : Type} (x : PacM α) (f : α → PacM β) (s : PacState)
    (e : PyErr) (s1 : PacState) (t1 : List PacAction)
    (hx : x s = (.error e, s1, t1)) : (x >>= f) s = (.error e, s1, t1) := by
  rw [pacBind_eq, hx]

/-- When every preferred window derives at least one sub-slot, the source's
search agrees with the spec-side window-major first-qualifying search. -/
theorem findFirstGo_eq_spec (avail : Court → String → Bool) (courts : List Court)
    (dt : Nat) (times : List CourtTime)
    (h : ∀ ct ∈ times, ct.getStartTimesForDate dt ≠ []) :
    findFirstAvailableCourtGo avail courts dt times
      = findAvailableSpec avail times courts dt := by
  induction times with
  | nil => simp [findFirstAvailableCourtGo, findAvailableSpec, windowMajorPairs]
  | cons ct rest ih =>
    have hct := h ct (by simp)
    have hrest : ∀ x ∈ rest, x.getStartTimesForDate dt ≠ [] :=
      fun x hx => h x (by simp [hx])
    simp only [findFirstAvailableCourtGo, findAvailableSpec, windowMajorPairs,
      List.flatMap_cons, List.find?_append, List.find?_map]
    cases hfind : courts.find?
        (fun court => (ct.getStartTimesForDate dt).all (avail court)) with
    | some c =>
      have : courts.find?
          ((fun p : CourtTime × Court => (p.1.getStartTimesForDate dt).all (avail p.2))
            ∘ fun c => (ct, c)) = some c := by
        simpa [Function.comp] using hfind
      rw [this]
      cases hst : ct.getStartTimesForDate dt with
      | nil => exact absurd hst hct
      | cons s0 ss => simp [Option.or, hst]
    | none =>
      have : courts.find?
          ((fun p : CourtTime × Court => (p.1.getStartTimesForDate dt).all (avail p.2))
            ∘ fun c => (ct, c)) = none := by
        simpa [Function.comp] using hfind
      rw [this]
      rw [ih hrest]
      simp [findAvailableSpec, windowMajorPairs, Option.or]

/-- Any exception from findFirstAvailableCourt propagates unchanged out of
the main reservation loop, with no state change and no page action: it is
fatal and non-retryable. -/
theorem mainLoop_fatal_on_search_error (cfg : PacRunConfig) (envs : Nat → PacEnv) (f i : Nat)
    (s : PacState) (e : PyErr)
    (hfind : findFirstAvailableCourt (envs i).avail cfg.times cfg.courts cfg.requestDate
      = .error e) :
    mainReserveLoop cfg envs (f + 1) i s = (.error e, s, []) := by
  have hsel : selectAvailableCourt cfg (envs i) s = (.error e, s, []) := by
    simp [selectAvailableCourt, hfind, throwP]
  simp only [mainReserveLoop, reserveIteration]
  rw [pacBind_error _ _ _ _ _ _ (pacBind_error _ _ _ _ _ _ hsel)]



/-- Closed form for the number of derived sub-slot tokens. -/
theorem getStartTimesForDate_length (ct : CourtTime) (dt : Nat) :
    ((ct.getStartTimesForDate dt).length : Int)
      = max 0 ((ct.duration * 60 + 1799) / 1800) := by
  unfold CourtTime.getStartTimesForDate
  rw [startTokensLoop_length]
  omega

/-- A window of positive duration derives at least one sub-slot token. -/
theorem getStartTimesForDate_ne_nil (ct : CourtTime) (dt : Nat) (h : 0 < ct.duration) :
    ct.getStartTimesForDate dt ≠ [] := by
  intro hnil
  have := getStartTimesForDate_length ct dt
  rw [hnil] at this
  simp only [List.length_nil] at this
  omega

/-- A window of nonpositive duration derives no sub-slot token. -/
theorem getStartTimesForDate_eq_nil (ct : CourtTime) (dt : Nat) (h : ct.duration ≤ 0) :
    ct.getStartTimesForDate dt = [] := by
  unfold CourtTime.getStartTimesForDate
  rw [startTokensLoop, if_neg]
  omega

/-- Core of C7: under any permutation of the courts list the search returns
results with identical (window, start-token) components. -/
theorem findFirstGo_perm (avail : Court → String → Bool) (dt : Nat)
    (times : List CourtTime) (courts courts' : List Court)
    (hperm : courts.Perm courts') :
    (findFirstAvailableCourtGo avail courts dt times).map
        (fun cat => (cat.courtTime, cat.startTime))
      = (findFirstAvailableCourtGo avail courts' dt times).map
        (fun cat => (cat.courtTime, cat.startTime)) := by
  induction times with
  | nil => rfl
  | cons ct rest ih =>
    simp only [findFirstAvailableCourtGo]
    cases h1 : courts.find? (fun court => (ct.getStartTimesForDate dt).all (avail court)) with
    | some c =>
      cases h2 : courts'.find?
          (fun court => (ct.getStartTimesForDate dt).all (avail court)) with
      | some c' =>
        cases hst : ct.getStartTimesForDate dt with
        | nil => rfl
        | cons s0 ss => simp [Except.map]
      | none =>
        exfalso
        have hc := List.find?_some h1
        have hmem := List.mem_of_find?_eq_some h1
        exact absurd hc (List.find?_eq_none.mp h2 c (hperm.mem_iff.mp hmem))
    | none =>
      cases h2 : courts'.find?
          (fun court => (ct.getStartTimesForDate dt).all (avail court)) with
      | some c' =>
        exfalso
        have hc := List.find?_some h2
        have hmem := List.mem_of_find?_eq_some h2
        exact absurd hc (List.find?_eq_none.mp h1 c' (hperm.mem_iff.mpr hmem))
      | none => exact ih



/-- C1 (amended: under the proviso that every preferred time window derives
at least one sub-slot, i.e. has positive duration; without it a window with
an empty sub-slot list passes the all-available test vacuously and the code
then raises IndexError at startTimes[0] instead of returning the pair — see
the counterexample): Slot Search iterates the preferred time windows as the
outer loop and the preferred courts as the inner loop; a (court, window)
pair qualifies only if every derived sub-slot of that court reports
available (logical AND); it returns the first qualifying pair in that
iteration order; and if no pair qualifies it raises the PacException
"No available courts found", which propagates out of the main reservation
loop unchanged with no further page action — fatal, non-retryable. -/
theorem claimC1_slot_search :
    (∀ (avail : Court → String → Bool) (times : List CourtTime) (courts : List Court)
        (dt : Nat), (∀ ct ∈ times, ct.getStartTimesForDate dt ≠ []) →
      findFirstAvailableCourt avail times courts dt = findAvailableSpec avail times courts dt)
    ∧ (∀ (cfg : PacRunConfig) (envs : Nat → PacEnv) (f i : Nat) (s : PacState) (e : PyErr),
      findFirstAvailableCourt (envs i).avail cfg.times cfg.courts cfg.requestDate = .error e →
      mainReserveLoop cfg envs (f + 1) i s = (.error e, s, [])) :=
  ⟨fun avail times courts dt h => findFirstGo_eq_spec avail courts dt times h,
   fun cfg envs f i s e h => mainLoop_fatal_on_search_error cfg envs f i s e h⟩

theorem claimC1_witness :
    ((∀ ct ∈ [CourtTime.mk ⟨8, 0, 0⟩ 90], ct.getStartTimesForDate 738391 ≠ []) ∧
      findFirstAvailableCourt (fun _ _ => true) [⟨⟨8, 0, 0⟩, 90⟩] [⟨"Court #1", "178"⟩] 738391
        = findAvailableSpec (fun _ _ => true) [⟨⟨8, 0, 0⟩, 90⟩] [⟨"Court #1", "178"⟩] 738391) ∧
    (findFirstAvailableCourt (fun _ _ => false) ([] : List CourtTime) [] 738391
        = .error (.pacException NO_COURTS_MSG) ∧
      mainReserveLoop ⟨[], [], 738391, false⟩
          (fun _ => PacEnv.mk (fun _ _ => false) false false (fun _ => false)
            (fun _ => false) false false [] false false) 1 0
          ⟨false, false, none, false, [], none⟩
        = (.error (.pacException NO_COURTS_MSG), ⟨false, false, none, false, [], none⟩, [])) := by
  have hne : ∀ ct ∈ [CourtTime.mk ⟨8, 0, 0⟩ 90], ct.getStartTimesForDate 738391 ≠ [] := by
    intro ct hct
    simp only [List.mem_singleton] at hct
    subst hct
    exact getStartTimesForDate_ne_nil _ _ (by norm_num)
  exact ⟨⟨hne, claimC1_slot_search.1 _ _ _ _ hne⟩,
    ⟨rfl, claimC1_slot_search.2 ⟨[], [], 738391, false⟩ _ 0 0 _ _ rfl⟩⟩

/-- C1 counterexample: with a single zero-duration window the empty sub-slot
list passes the all-available test vacuously, and the code raises IndexError
at startTimes[0] — it neither returns the (vacuously qualifying) first pair,
as the spec-side search does, nor signals "No available courts found". -/
theorem claimC1_counterexample :
    findFirstAvailableCourt (fun _ _ => true) [⟨⟨8, 0, 0⟩, 0⟩] [⟨"Court #1", "178"⟩] 738391
      = .error .indexError ∧
    findAvailableSpec (fun _ _ => true) [⟨⟨8, 0, 0⟩, 0⟩] [⟨"Court #1", "178"⟩] 738391
      = .ok ⟨⟨"Court #1", "178"⟩, ⟨⟨8, 0, 0⟩, 0⟩, ""⟩ := by
  have hnil : (CourtTime.mk ⟨8, 0, 0⟩ 0).getStartTimesForDate 738391 = [] :=
    getStartTimesForDate_eq_nil _ _ (by norm_num)
  constructor
  · simp [findFirstAvailableCourt, findFirstAvailableCourtGo, hnil]
  · simp [findAvailableSpec, windowMajorPairs, hnil]

/-- C7: for every fixed availability assignment, permuting
resourcesInPreferredOrder changes only which court is chosen among the
fully-available courts within the same time window: the (window,
start-token) components of the search result — in particular the time
window — are unchanged by any permutation of the courts list (and when one
order finds no court, so does the other, with the same exception). -/
theorem claimC7_court_order (avail : Court → String → Bool) (times : List CourtTime)
    (courts courts' : List Court) (dt : Nat) (hperm : courts.Perm courts') :
    (findFirstAvailableCourt avail times courts dt).map
        (fun cat => (cat.courtTime, cat.startTime))
      = (findFirstAvailableCourt avail times courts' dt).map
        (fun cat => (cat.courtTime, cat.startTime)) :=
  findFirstGo_perm avail dt times courts courts' hperm

theorem claimC7_witness :
    ([Court.mk "Court #1" "178", Court.mk "Court #3" "180"].Perm
      [Court.mk "Court #3" "180", Court.mk "Court #1" "178"]) ∧
    ((findFirstAvailableCourt (fun _ _ => true) [⟨⟨8, 0, 0⟩, 90⟩]
        [Court.mk "Court #1" "178", Court.mk "Court #3" "180"] 738391).map
          (fun cat => (cat.courtTime, cat.startTime))
      = (findFirstAvailableCourt (fun _ _ => true) [⟨⟨8, 0, 0⟩, 90⟩]
        [Court.mk "Court #3" "180", Court.mk "Court #1" "178"] 738391).map
          (fun cat => (cat.courtTime, cat.startTime))) :=
  ⟨by decide, claimC7_court_order _ _ _ _ _ (by decide)⟩



/-- Unfolding of pure in the PacM monad. -/
theorem pacPure_eq {α : Type} (a : α) (s : PacState) :
    (pure a : PacM α) s = (.ok a, s, []) := rfl

/-- selectPlayer when the name resolves on the first attempt: one key-in,
then the name is clicked. -/
theorem selectPlayer_first_try (env : PacEnv) (name : String) (s : PacState)
    (hk : env.keyInFails 0 = false) (hl : env.lookupResolves 0 = true)
    (hp : env.pickFromListFails = false) :
    selectPlayer env name s = (.ok (), s, [.keyIn name, .addName name]) := by
  simp [selectPlayer, selectPlayerLoop, pacBind_eq, pacPure_eq, emit, throwP,
    hk, hl, hp]

/-- selectPlayer when the name never resolves: exactly three key-in attempts
run, then the wrapped timeout PacException is raised (fatal — the loop does
not fall through to anything else). -/
theorem selectPlayer_exhausts_three (env : PacEnv) (name : String) (s : PacState)
    (hk : ∀ a, env.keyInFails a = false) (hl : ∀ a, env.lookupResolves a = false) :
    selectPlayer env name s
      = (.error (.pacException ("Unable to find player, TimeoutException: Timed out waiting for "
          ++ name ++ " in list")), s, [.keyIn name, .keyIn name, .keyIn name]) := by
  simp [selectPlayer, selectPlayerLoop, pacBind_eq, pacPure_eq, emit, throwP,
    hk 0, hk 1, hk 2, hl 0, hl 1, hl 2]

/-- addPlayer with an exhausted candidate iterator raises the "Need another
player" PacException. -/
theorem addPlayer_empty_queue (env : PacEnv) (s : PacState)
    (hq : s.playerQueue = []) :
    addPlayer env s = (.error (.pacException "Need another player for reservation"), s, []) := by
  simp [addPlayer, pacBind_eq, pacPure_eq, getS, throwP, hq]

/-- addPlayer takes exactly the next candidate in list order, resets the
conflict flag, and on a successful lookup records the co-player. -/
theorem addPlayer_pops_in_order (env : PacEnv) (s : PacState) (p : User) (rest : List User)
    (hq : s.playerQueue = p :: rest)
    (hk : env.keyInFails 0 = false) (hl : env.lookupResolves 0 = true)
    (hp : env.pickFromListFails = false) :
    addPlayer env s
      = (.ok (),
         {s with playerQueue := rest, playerHasAlreadyReserved := false, player2 := some p.nickname},
         [.keyIn p.username, .addName p.username]) := by
  simp [addPlayer, pacBind_eq, pacPure_eq, getS, modifyS, throwP, hq,
    selectPlayer_first_try env p.username _ hk hl hp]

/-- addPlayer when the candidate's lookup never resolves: the retry bound is
exhausted and the PacException propagates; the following candidates are not
tried within this call (the trace shows only this candidate's key-ins). -/
theorem addPlayer_fatal_no_advance (env : PacEnv) (s : PacState) (p : User) (rest : List User)
    (hq : s.playerQueue = p :: rest)
    (hk : ∀ a, env.keyInFails a = false) (hl : ∀ a, env.lookupResolves a = false) :
    addPlayer env s
      = (.error (.pacException ("Unable to find player, TimeoutException: Timed out waiting for "
          ++ p.username ++ " in list")),
         {s with playerQueue := rest, playerHasAlreadyReserved := false},
         [.keyIn p.username, .keyIn p.username, .keyIn p.username]) := by
  simp [addPlayer, pacBind_eq, pacPure_eq, getS, modifyS, throwP, hq,
    selectPlayer_exhausts_three env p.username _ hk hl]



/-- The date-advance loop never terminates when entered with a negative
difference: diff only decreases, so the diff = 0 exit is unreachable. -/
theorem navigateDateLoop_neg (fuel : Nat) : ∀ (d : Int) (c : Nat), d < 0 →
    navigateDateLoop fuel d c = none := by
  induction fuel with
  | zero =>
    intro d c hd
    rw [navigateDateLoop.eq_def, if_neg (by omega)]
  | succ f ih =>
    intro d c hd
    rw [navigateDateLoop.eq_def, if_neg (by omega)]
    exact ih (d - 1) (c + 1) (by omega)

/-- The date-advance loop started at a nonnegative difference n finishes
after exactly n advance clicks (given fuel at least n). -/
theorem navigateDateLoop_nonneg (n : Nat) : ∀ (fuel c : Nat), n ≤ fuel →
    navigateDateLoop fuel (n : Int) c = some (c + n) := by
  induction n with
  | zero =>
    intro fuel c _
    rw [navigateDateLoop.eq_def]
    simp
  | succ m ih =>
    intro fuel c hf
    match fuel, hf with
    | f + 1, hf =>
      rw [navigateDateLoop.eq_def, if_neg (by omega)]
      have hcast : ((m + 1 : Nat) : Int) - 1 = (m : Int) := by push_cast ; omega
      rw [hcast]
      show navigateDateLoop f ((m : Nat) : Int) (c + 1) = some (c + (m + 1))
      rw [ih f (c + 1) (by omega)]
      congr 1
      omega

/-- C6 (amended: the bound holds only when the displayed date is not after
the target; for a displayed date after the target the signed difference is
negative and the loop never terminates — see the counterexample): when the
displayed schedule date is on or before the target date, the date-advance
loop terminates with iteration count equal to the day difference; when the
displayed date is after the target, the loop runs forever (its count stays
none for every fuel). -/
theorem claimC6_date_advance (requestOrd schOrd : Nat) :
    (schOrd ≤ requestOrd →
      ∀ fuel, requestOrd - schOrd ≤ fuel →
        navigateAdvanceCount fuel requestOrd schOrd = some (requestOrd - schOrd))
    ∧ (requestOrd < schOrd →
      ∀ fuel, navigateAdvanceCount fuel requestOrd schOrd = none) := by
  constructor
  · intro hle fuel hf
    unfold navigateAdvanceCount
    have : (requestOrd : Int) - (schOrd : Int) = ((requestOrd - schOrd : Nat) : Int) := by
      omega
    rw [this, navigateDateLoop_nonneg (requestOrd - schOrd) fuel 0 hf]
    simp
  · intro hlt fuel
    unfold navigateAdvanceCount
    exact navigateDateLoop_neg fuel _ 0 (by omega)

/-- C6 counterexample: with the schedule showing one day after the target
date, the loop does not terminate at all (for every fuel), so it has no
iteration count, let alone one equal to the signed difference -1. -/
theorem claimC6_counterexample : ¬ TerminatesWithSignedCount 738391 738392 := by
  rintro ⟨fuel, n, h, hn⟩
  rw [navigateAdvanceCount.eq_def, navigateDateLoop_neg fuel _ 0 (by norm_num)] at h
  exact Option.noConfusion h

/-- Witness for C6 at concrete dates (3 days ahead, and 1 day behind). -/
theorem claimC6_witness :
    (738388 ≤ 738391 ∧ (738391 - 738388 ≤ 3 ∧
      navigateAdvanceCount 3 738391 738388 = some (738391 - 738388))) ∧
    (738391 < 738392 ∧
      navigateAdvanceCount 5 738391 738392 = none) :=
  ⟨⟨by decide, by decide, (claimC6_date_advance 738391 738388).1 (by decide) 3 (by decide)⟩,
   ⟨by decide, (claimC6_date_advance 738391 738392).2 (by decide) 5⟩⟩



/-- The exit handler's trace: a cancel click exactly when the reservation
form is still open, then a log-out action exactly when the session is still
logged in — independent of whether either attempt itself fails. -/
theorem pacExit_trace (env : PacEnv) (s1 : PacState) :
    (pacExit env s1).2.2
      = (if s1.resFormOpen then [PacAction.cancelClick] else [])
        ++ (if s1.logOutHrefSet then [PacAction.logOutAct] else []) := by
  rcases s1 with ⟨rf, lo, fo, ph, q, p2⟩
  cases hc : env.cancelFails <;> cases hl : env.logOutFails <;> cases rf <;> cases lo <;>
    simp [pacExit, tryFinallyM, cancelPendingReservation, pacLogOut, getS, modifyS,
      emit, throwP, pacBind_eq, pacPure_eq, hc, hl]

/-- C2: however the guarded body exits (normal, handled PacException, or
uncaught defect — body and its outcome are arbitrary), the guard's exit
handler appends first a cancel of any reservation attempt still open, then
a log-out of any open session; cancellation always precedes logout in the
trace, and because the trace shape does not depend on the environment's
cancelFails flag, a failure raised while cancelling does not prevent the
logout attempt (try/finally semantics). -/
theorem claimC2_guard_cleanup (env : PacEnv) (body : PacM Unit) (s : PacState) :
    (withSelf env body s).2.2
      = (body s).2.2
        ++ ((if (body s).2.1.resFormOpen then [PacAction.cancelClick] else [])
          ++ (if (body s).2.1.logOutHrefSet then [PacAction.logOutAct] else [])) ∧
    ((body s).2.1.resFormOpen = true → PacAction.cancelClick ∈ (withSelf env body s).2.2) ∧
    ((body s).2.1.logOutHrefSet = true → PacAction.logOutAct ∈ (withSelf env body s).2.2) := by
  have htr : (withSelf env body s).2.2 = (body s).2.2 ++ (pacExit env (body s).2.1).2.2 := by
    rcases hb : body s with ⟨rb, s1, t1⟩
    rcases he : pacExit env s1 with ⟨re, s2, t2⟩
    simp [withSelf, hb, he]
  rw [htr, pacExit_trace]
  refine ⟨rfl, ?_, ?_⟩
  · intro h
    simp [h]
  · intro h
    simp [h]

/-- C4 (amended: after the fixed bound of 3 failed lookup attempts the
workflow fails fatally with the wrapped timeout PacException rather than
moving on to the next candidate — see the counterexample; the next
candidate is only taken when a later participant-conflict retry re-enters
addPlayer): candidates are taken one at a time in list order from the
iterator positioned after "self"; an exhausted list raises "Need another
player for reservation"; a successful lookup uses the next candidate; each
candidate's lookup is retried up to exactly 3 attempts, and exhausting them
raises a PacException naming that candidate, leaving the rest untried. -/
theorem claimC4_co_participant :
    (∀ (env : PacEnv) (s : PacState), s.playerQueue = [] →
      addPlayer env s
        = (.error (.pacException "Need another player for reservation"), s, []))
    ∧ (∀ (env : PacEnv) (s : PacState) (p : User) (rest : List User),
      s.playerQueue = p :: rest →
      env.keyInFails 0 = false → env.lookupResolves 0 = true →
      env.pickFromListFails = false →
      addPlayer env s
        = (.ok (),
           {s with playerQueue := rest, playerHasAlreadyReserved := false, player2 := some p.nickname},
           [.keyIn p.username, .addName p.username]))
    ∧ (∀ (env : PacEnv) (name : String) (s : PacState),
      (∀ a, env.keyInFails a = false) → (∀ a, env.lookupResolves a = false) →
      selectPlayer env name s
        = (.error (.pacException
            ("Unable to find player, TimeoutException: Timed out waiting for "
              ++ name ++ " in list")), s, [.keyIn name, .keyIn name, .keyIn name]))
    ∧ (∀ (env : PacEnv) (s : PacState) (p : User) (rest : List User),
      s.playerQueue = p :: rest →
      (∀ a, env.keyInFails a = false) → (∀ a, env.lookupResolves a = false) →
      addPlayer env s
        = (.error (.pacException
            ("Unable to find player, TimeoutException: Timed out waiting for "
              ++ p.username ++ " in list")),
           {s with playerQueue := rest, playerHasAlreadyReserved := false},
           [.keyIn p.username, .keyIn p.username, .keyIn p.username])) :=
  ⟨fun env s hq => addPlayer_empty_queue env s hq,
   fun env s p rest hq hk hl hp => addPlayer_pops_in_order env s p rest hq hk hl hp,
   fun env name s hk hl => selectPlayer_exhausts_three env name s hk hl,
   fun env s p rest hq hk hl => addPlayer_fatal_no_advance env s p rest hq hk hl⟩

/-- C4 counterexample: with candidates user1 and user2 queued and user1's
lookup never resolving, the workflow raises the fatal timeout PacException
after three attempts at user1 and never tries user2 — the claim's "moves on
to the next candidate" does not happen. -/
theorem claimC4_counterexample :
    addPlayer
        (PacEnv.mk (fun _ _ => true) false false (fun _ => false) (fun _ => false)
          false false [] false false)
        ⟨false, false, none, false, [⟨"P One", "user1"⟩, ⟨"P Two", "user2"⟩], none⟩
      = (.error (.pacException
          "Unable to find player, TimeoutException: Timed out waiting for user1 in list"),
         ⟨false, false, none, false, [⟨"P Two", "user2"⟩], none⟩,
         [.keyIn "user1", .keyIn "user1", .keyIn "user1"]) ∧
    PacAction.keyIn "user2"
      ∉ (addPlayer
          (PacEnv.mk (fun _ _ => true) false false (fun _ => false) (fun _ => false)
            false false [] false false)
          ⟨false, false, none, false, [⟨"P One", "user1"⟩, ⟨"P Two", "user2"⟩], none⟩).2.2 := by
  constructor
  · rfl
  · decide

/-- Witness for C4 on concrete queues. -/
theorem claimC4_witness :
    ((PacState.mk false false none false [] none).playerQueue = [] ∧
      addPlayer
          (PacEnv.mk (fun _ _ => true) false false (fun _ => false) (fun _ => true)
            false false [] false false)
          ⟨false, false, none, false, [], none⟩
        = (.error (.pacException "Need another player for reservation"),
           ⟨false, false, none, false, [], none⟩, [])) ∧
    ((PacState.mk false false none false [⟨"P One", "user1"⟩] none).playerQueue
        = [User.mk "P One" "user1"] ∧
      addPlayer
          (PacEnv.mk (fun _ _ => true) false false (fun _ => false) (fun _ => true)
            false false [] false false)
          ⟨false, false, none, false, [⟨"P One", "user1"⟩], none⟩
        = (.ok (),
           ⟨false, false, none, false, [], some "P One"⟩,
           [.keyIn "user1", .addName "user1"])) :=
  ⟨⟨rfl, claimC4_co_participant.1 _ _ rfl⟩,
   ⟨rfl, claimC4_co_participant.2.1 _ _ ⟨"P One", "user1"⟩ [] rfl rfl rfl rfl⟩⟩

/-- Witness for C2: a body that raises and leaves both an open form and an
open session, with a failing cancel, still yields cancel and logout. -/
theorem claimC2_witness :
    PacAction.cancelClick
      ∈ (withSelf
          (PacEnv.mk (fun _ _ => false) false false (fun _ => false) (fun _ => false)
            false false [] true false)
          (fun st => (.error (.pacException "boom"),
            {st with resFormOpen := true, logOutHrefSet := true}, []))
          ⟨false, false, none, false, [], none⟩).2.2 ∧
    PacAction.logOutAct
      ∈ (withSelf
          (PacEnv.mk (fun _ _ => false) false false (fun _ => false) (fun _ => false)
            false false [] true false)
          (fun st => (.error (.pacException "boom"),
            {st with resFormOpen := true, logOutHrefSet := true}, []))
          ⟨false, false, none, false, [], none⟩).2.2 :=
  ⟨(claimC2_guard_cleanup _ _ _).2.1 rfl, (claimC2_guard_cleanup _ _ _).2.2 rfl⟩



/-- nextDateForDay succeeds on every abbreviation the parser accepts. -/
theorem nextDateForDay_ok (today : Nat) (dow : String) (w : Fin 7)
    (h : parseDayAbbrev dow = some w) :
    ∃ d, CourtTimes.nextDateForDay today dow = .ok d := by
  unfold CourtTimes.nextDateForDay
  rw [h]
  dsimp only
  split
  · exact ⟨_, rfl⟩
  · exact ⟨_, rfl⟩

/-- C10: construction and the request summary require non-empty preference
lists.  With an empty people list __init__ reaches players.people[0] (after
the loads and the date computation succeed) and raises a bare IndexError —
which is a different exception from every handled PacException; with an
empty court or time list, __init__ succeeds and getReqSummary's first two
indexings raise IndexError; with all three lists non-empty the IndexError
branches are unreachable: __init__ returns the config (player1 being the
first nickname) and getReqSummary returns a summary string. -/
theorem claimC10_nonempty_preconditions :
    (∀ (cwd : String) (cs : Courts) (ts : CourtTimes) (today : Nat) (dow : String)
        (pw : String) (sh te : Bool) (w : Fin 7), parseDayAbbrev dow = some w →
      pacControlInit cwd (.ok cs) (.ok ts) today dow (.ok ⟨[], pw⟩) sh te
        = .error .indexError)
    ∧ (∀ msg, PyErr.indexError ≠ PyErr.pacException msg)
    ∧ (∀ cfg : PacConfig, cfg.preferredCourts.courtsInPreferredOrder = [] ∨
        cfg.preferredTimes.timesInPreferredOrder = [] →
      getReqSummary cfg = .error .indexError)
    ∧ (∀ cfg : PacConfig, cfg.preferredCourts.courtsInPreferredOrder ≠ [] →
        cfg.preferredTimes.timesInPreferredOrder ≠ [] →
      ∃ str, getReqSummary cfg = .ok str)
    ∧ (∀ (cwd : String) (cs : Courts) (ts : CourtTimes) (today : Nat) (dow : String)
        (p : User) (rest : List User) (pw : String) (sh te : Bool) (w : Fin 7),
        parseDayAbbrev dow = some w →
      ∃ c, pacControlInit cwd (.ok cs) (.ok ts) today dow (.ok ⟨p :: rest, pw⟩) sh te
        = .ok c ∧ c.player1 = p.nickname) := by
  refine ⟨?_, ?_, ?_, ?_, ?_⟩
  · intro cwd cs ts today dow pw sh te w h
    obtain ⟨d, hd⟩ := nextDateForDay_ok today dow w h
    simp [pacControlInit, hd]
  · intro msg h
    exact PyErr.noConfusion h
  · intro cfg h
    rcases hc : cfg.preferredCourts.courtsInPreferredOrder with - | ⟨c0, cs'⟩
    · simp [getReqSummary, hc]
    · rcases h with h | h
      · rw [hc] at h
        exact absurd h (by simp)
      · simp [getReqSummary, hc, h]
  · intro cfg hc ht
    rcases hc' : cfg.preferredCourts.courtsInPreferredOrder with - | ⟨c0, cs'⟩
    · exact absurd hc' hc
    · rcases ht' : cfg.preferredTimes.timesInPreferredOrder with - | ⟨t0, ts'⟩
      · exact absurd ht' ht
      · simp only [getReqSummary, hc', ht', List.head?]
        exact ⟨_, rfl⟩
  · intro cwd cs ts today dow p rest pw sh te w h
    obtain ⟨d, hd⟩ := nextDateForDay_ok today dow w h
    simp only [pacControlInit, hd]
    exact ⟨_, rfl, rfl⟩



/-- Witness for C10 at concrete empty and non-empty preference lists. -/
theorem claimC10_witness :
    (parseDayAbbrev "Wed" = some 2 ∧
      pacControlInit "/home" (.ok ⟨[]⟩) (.ok ⟨[]⟩) 738391 "Wed"
          (.ok ⟨[], "pw"⟩) false false
        = .error .indexError) ∧
    (((PacConfig.mk ⟨[]⟩ ⟨[]⟩ 738391 ⟨[⟨"Di", "di"⟩], "pw"⟩ false false
        "Di").preferredCourts.courtsInPreferredOrder = [] ∨
      (PacConfig.mk ⟨[]⟩ ⟨[]⟩ 738391 ⟨[⟨"Di", "di"⟩], "pw"⟩ false false
        "Di").preferredTimes.timesInPreferredOrder = []) ∧
      getReqSummary (PacConfig.mk ⟨[]⟩ ⟨[]⟩ 738391 ⟨[⟨"Di", "di"⟩], "pw"⟩ false false "Di")
        = .error .indexError) ∧
    (∃ str, getReqSummary
        (PacConfig.mk ⟨[⟨"Court #1", "178"⟩]⟩ ⟨[⟨⟨8, 0, 0⟩, 90⟩]⟩ 738391
          ⟨[⟨"Di", "di"⟩, ⟨"Bec", "bec"⟩], "pw"⟩ false false "Di")
        = .ok str) :=
  ⟨⟨by decide, claimC10_nonempty_preconditions.1 "/home" ⟨[]⟩ ⟨[]⟩ 738391 "Wed" "pw"
      false false 2 (by decide)⟩,
   ⟨Or.inl rfl, claimC10_nonempty_preconditions.2.2.1 _ (Or.inl rfl)⟩,
   claimC10_nonempty_preconditions.2.2.2.1 _ (by decide) (by decide)⟩



/-- "; ".join of one message is that message. -/
theorem intercalate_one (sep a : String) : String.intercalate sep [a] = a := rfl

/-- "; ".join of two messages separates them with the separator. -/
theorem intercalate_two (sep a b : String) :
    String.intercalate sep [a, b] = a ++ sep ++ b := rfl

/-- handleErrorWindow on a single displayed participant-conflict dialog:
the dialog is dismissed, the conflicted flag set, and the pending
reservation cancelled; no exception is raised. -/
theorem handleErrWins_conflict (env : PacEnv) (um : String) (w : ErrWin) (s : PacState)
    (hd : w.displayed = true) (hf : w.dismissFails = false)
    (hc : isConflictText w.text = true) (hcf : env.cancelFails = false) :
    handleErrWins env um [w] [] s
      = (.ok (), {s with playerHasAlreadyReserved := true, resFormOpen := false},
         [.dismissError w.text, .cancelClick]) := by
  simp [handleErrWins, pacBind_eq, pacPure_eq, emit, throwP, modifyS,
    cancelPendingReservation, hd, hf, hc, hcf]

/-- handleErrorWindow on a single displayed dialog with any other text:
the dialog is dismissed and the PacException carries the text verbatim. -/
theorem handleErrWins_other (env : PacEnv) (um : String) (w : ErrWin) (s : PacState)
    (hd : w.displayed = true) (hf : w.dismissFails = false)
    (hc : isConflictText w.text = false) :
    handleErrWins env um [w] [] s
      = (.error (.pacException ("Unable to " ++ um ++ " due to: " ++ w.text)), s,
         [.dismissError w.text]) := by
  simp [handleErrWins, pacBind_eq, pacPure_eq, emit, throwP, modifyS,
    cancelPendingReservation, hd, hf, hc, intercalate_one]

/-- handleErrorWindow on two displayed non-conflict dialogs: both are
dismissed and the PacException joins both texts with "; ". -/
theorem handleErrWins_other_two (env : PacEnv) (um : String) (w1 w2 : ErrWin) (s : PacState)
    (hd1 : w1.displayed = true) (hf1 : w1.dismissFails = false)
    (hc1 : isConflictText w1.text = false)
    (hd2 : w2.displayed = true) (hf2 : w2.dismissFails = false)
    (hc2 : isConflictText w2.text = false) :
    handleErrWins env um [w1, w2] [] s
      = (.error (.pacException ("Unable to " ++ um ++ " due to: "
          ++ (w1.text ++ "; " ++ w2.text))), s,
         [.dismissError w1.text, .dismissError w2.text]) := by
  simp [handleErrWins, pacBind_eq, pacPure_eq, emit, throwP, modifyS,
    cancelPendingReservation, hd1, hf1, hc1, hd2, hf2, hc2, intercalate_two]



/-- reserveCourt (live mode) when the summary surfaces one conflict dialog:
confirm is clicked, the dialog dismissed, the attempt cancelled, and the
iteration ends normally with the retry flag set. -/
theorem reserveCourt_conflict (cfg : PacRunConfig) (env : PacEnv) (w : ErrWin) (s : PacState)
    (htm : cfg.testMode = false) (hph : s.playerHasAlreadyReserved = false)
    (hcc : env.confirmClickFails = false) (hew : env.errWins = [w])
    (hd : w.displayed = true) (hf : w.dismissFails = false)
    (hc : isConflictText w.text = true) (hcf : env.cancelFails = false) :
    reserveCourt cfg env s
      = (.ok (), {s with playerHasAlreadyReserved := true, resFormOpen := false},
         [.confirmClick, .dismissError w.text, .cancelClick]) := by
  simp [reserveCourt, handleErrorWindow, pacBind_eq, pacPure_eq, getS, modifyS, emit,
    throwP, htm, hph, hcc, hew,
    handleErrWins_conflict env _ w s hd hf hc hcf]

/-- reserveCourt (live mode) when the summary surfaces one other-text
dialog: the dialog is dismissed and the fatal PacException carries the text
verbatim; the form stays open (for the guard to cancel). -/
theorem reserveCourt_other (cfg : PacRunConfig) (env : PacEnv) (w : ErrWin) (s : PacState)
    (htm : cfg.testMode = false) (hph : s.playerHasAlreadyReserved = false)
    (hcc : env.confirmClickFails = false) (hew : env.errWins = [w])
    (hd : w.displayed = true) (hf : w.dismissFails = false)
    (hc : isConflictText w.text = false) :
    reserveCourt cfg env s
      = (.error (.pacException ("Unable to confirm reservation is good due to: " ++ w.text)),
         s, [.confirmClick, .dismissError w.text]) := by
  simp [reserveCourt, handleErrorWindow, pacBind_eq, pacPure_eq, getS, modifyS, emit,
    throwP, htm, hph, hcc, hew,
    handleErrWins_other env _ w s hd hf hc]



/-- A successful prefix of a PacM computation prepends its trace. -/
theorem pacBind_ok {α β : Type} (x : PacM α) (f : α → PacM β) (s : PacState)
    (a : α) (s1 : PacState) (t1 : List PacAction)
    (hx : x s = (.ok a, s1, t1)) :
    (x >>= f) s = ((f a s1).1, (f a s1).2.1, t1 ++ (f a s1).2.2) := by
  rw [pacBind_eq, hx]

/-- One whole reservation pass whose summary surfaces a participant-conflict
dialog: full trace and state, ending ok with playerHasAlreadyReserved. -/
theorem reserveIteration_conflict (cfg : PacRunConfig) (env : PacEnv) (s : PacState)
    (cat : CourtAndTime) (p : User) (rest : List User) (w : ErrWin)
    (htm : cfg.testMode = false)
    (hfind : findFirstAvailableCourt env.avail cfg.times cfg.courts cfg.requestDate = .ok cat)
    (hsb : env.selectBlockFails = false) (hsp : env.setParamsFails = false)
    (hq : s.playerQueue = p :: rest)
    (hk : env.keyInFails 0 = false) (hl : env.lookupResolves 0 = true)
    (hp : env.pickFromListFails = false)
    (hcc : env.confirmClickFails = false) (hew : env.errWins = [w])
    (hd : w.displayed = true) (hf : w.dismissFails = false)
    (hc : isConflictText w.text = true) (hcf : env.cancelFails = false) :
    reserveIteration cfg env s
      = (.ok (),
         {s with resFormOpen := false, found := some cat, playerHasAlreadyReserved := true, playerQueue := rest, player2 := some p.nickname},
         [.clickBlock cat.court.name cat.startTime, .setParams, .keyIn p.username,
          .addName p.username, .confirmClick, .dismissError w.text, .cancelClick]) := by
  have hsel : selectAvailableCourt cfg env s
      = (.ok (), PacState.mk true s.logOutHrefSet (some cat) s.playerHasAlreadyReserved
          (p :: rest) s.player2, [.clickBlock cat.court.name cat.startTime]) := by
    simp [selectAvailableCourt, pacBind_eq, pacPure_eq, modifyS, emit, throwP,
      hfind, hsb, hq]
  have hset : setReservationParameters env
      (PacState.mk true s.logOutHrefSet (some cat) s.playerHasAlreadyReserved
        (p :: rest) s.player2)
      = (.ok (), PacState.mk true s.logOutHrefSet (some cat) s.playerHasAlreadyReserved
          (p :: rest) s.player2, [.setParams]) := by
    simp [setReservationParameters, pacBind_eq, pacPure_eq, emit, throwP, hsp]
  have hadd : addPlayer env
      (PacState.mk true s.logOutHrefSet (some cat) s.playerHasAlreadyReserved
        (p :: rest) s.player2)
      = (.ok (), PacState.mk true s.logOutHrefSet (some cat) false rest (some p.nickname),
         [.keyIn p.username, .addName p.username]) := by
    rw [addPlayer_pops_in_order env _ p rest rfl hk hl hp]
  have hres : reserveCourt cfg env
      (PacState.mk true s.logOutHrefSet (some cat) false rest (some p.nickname))
      = (.ok (), PacState.mk false s.logOutHrefSet (some cat) true rest (some p.nickname),
         [.confirmClick, .dismissError w.text, .cancelClick]) := by
    rw [reserveCourt_conflict cfg env w _ htm rfl hcc hew hd hf hc hcf]
  simp only [reserveIteration]
  rw [pacBind_ok _ _ _ _ _ _ hsel]
  rw [pacBind_ok _ _ _ _ _ _ hset]
  rw [pacBind_ok _ _ _ _ _ _ hadd]
  rw [hres]
  simp

/-- One whole reservation pass whose summary surfaces an other-text dialog:
the pass ends with the fatal PacException carrying the text verbatim. -/
theorem reserveIteration_other (cfg : PacRunConfig) (env : PacEnv) (s : PacState)
    (cat : CourtAndTime) (p : User) (rest : List User) (w : ErrWin)
    (htm : cfg.testMode = false)
    (hfind : findFirstAvailableCourt env.avail cfg.times cfg.courts cfg.requestDate = .ok cat)
    (hsb : env.selectBlockFails = false) (hsp : env.setParamsFails = false)
    (hq : s.playerQueue = p :: rest)
    (hk : env.keyInFails 0 = false) (hl : env.lookupResolves 0 = true)
    (hp : env.pickFromListFails = false)
    (hcc : env.confirmClickFails = false) (hew : env.errWins = [w])
    (hd : w.displayed = true) (hf : w.dismissFails = false)
    (hc : isConflictText w.text = false) :
    reserveIteration cfg env s
      = (.error (.pacException ("Unable to confirm reservation is good due to: " ++ w.text)),
         {s with resFormOpen := true, found := some cat, playerHasAlreadyReserved := false, playerQueue := rest, player2 := some p.nickname},
         [.clickBlock cat.court.name cat.startTime, .setParams, .keyIn p.username,
          .addName p.username, .confirmClick, .dismissError w.text]) := by
  have hsel : selectAvailableCourt cfg env s
      = (.ok (), PacState.mk true s.logOutHrefSet (some cat) s.playerHasAlreadyReserved
          (p :: rest) s.player2, [.clickBlock cat.court.name cat.startTime]) := by
    simp [selectAvailableCourt, pacBind_eq, pacPure_eq, modifyS, emit, throwP,
      hfind, hsb, hq]
  have hset : setReservationParameters env
      (PacState.mk true s.logOutHrefSet (some cat) s.playerHasAlreadyReserved
        (p :: rest) s.player2)
      = (.ok (), PacState.mk true s.logOutHrefSet (some cat) s.playerHasAlreadyReserved
          (p :: rest) s.player2, [.setParams]) := by
    simp [setReservationParameters, pacBind_eq, pacPure_eq, emit, throwP, hsp]
  have hadd : addPlayer env
      (PacState.mk true s.logOutHrefSet (some cat) s.playerHasAlreadyReserved
        (p :: rest) s.player2)
      = (.ok (), PacState.mk true s.logOutHrefSet (some cat) false rest (some p.nickname),
         [.keyIn p.username, .addName p.username]) := by
    rw [addPlayer_pops_in_order env _ p rest rfl hk hl hp]
  have hres : reserveCourt cfg env
      (PacState.mk true s.logOutHrefSet (some cat) false rest (some p.nickname))
      = (.error (.pacException ("Unable to confirm reservation is good due to: " ++ w.text)),
         PacState.mk true s.logOutHrefSet (some cat) false rest (some p.nickname),
         [.confirmClick, .dismissError w.text]) := by
    rw [reserveCourt_other cfg env w _ htm rfl hcc hew hd hf hc]
  simp only [reserveIteration]
  rw [pacBind_ok _ _ _ _ _ _ hsel]
  rw [pacBind_ok _ _ _ _ _ _ hset]
  rw [pacBind_ok _ _ _ _ _ _ hadd]
  rw [hres]
  simp



/-- When an iteration ends normally with the retry flag set, the main loop
runs the next iteration from the updated state: the run continues at
selectAvailableCourt — the schedule-open entry point — with the iteration's
trace prepended. -/
theorem mainReserveLoop_retry_step (cfg : PacRunConfig) (envs : Nat → PacEnv)
    (f i : Nat) (s s' : PacState) (t : List PacAction)
    (hit : reserveIteration cfg (envs i) s = (.ok (), s', t))
    (hph : s'.playerHasAlreadyReserved = true) :
    mainReserveLoop cfg envs (f + 1) i s
      = ((mainReserveLoop cfg envs f (i + 1) s').1,
         (mainReserveLoop cfg envs f (i + 1) s').2.1,
         t ++ (mainReserveLoop cfg envs f (i + 1) s').2.2) := by
  simp only [mainReserveLoop]
  rw [pacBind_ok _ _ _ _ _ _ hit]
  simp [pacBind_eq, getS, hph, pacPure_eq]

/-- When an iteration raises, the main loop ends with that exception: no
retry happens. -/
theorem mainReserveLoop_error_step (cfg : PacRunConfig) (envs : Nat → PacEnv)
    (f i : Nat) (s s' : PacState) (t : List PacAction) (e : PyErr)
    (hit : reserveIteration cfg (envs i) s = (.error e, s', t)) :
    mainReserveLoop cfg envs (f + 1) i s = (.error e, s', t) := by
  simp only [mainReserveLoop]
  rw [pacBind_error _ _ _ _ _ _ hit]

/-- Concrete search evaluation: with everything available, a single window
and court yield that pair and the window's first start token. -/
theorem findFirst_all_avail_single (ct : CourtTime) (c : Court) (dt : Nat)
    (h : 0 < ct.duration) :
    findFirstAvailableCourt (fun _ _ => true) [ct] [c] dt
      = .ok ⟨c, ct, renderStartToken (combineSecs dt ct.startTime)⟩ := by
  have hcons : ct.getStartTimesForDate dt
      = renderStartToken (combineSecs dt ct.startTime)
        :: startTokensLoop (combineSecs dt ct.startTime + 1800)
          ((combineSecs dt ct.startTime : Int) + ct.duration * 60) := by
    unfold CourtTime.getStartTimesForDate
    rw [startTokensLoop, if_pos (by omega)]
  have hall : (startTokensLoop (combineSecs dt ct.startTime + 1800)
      ((combineSecs dt ct.startTime : Int) + ct.duration * 60)).all (fun x => true) = true :=
    List.all_eq_true.mpr (fun x hx => rfl)
  simp [findFirstAvailableCourt, findFirstAvailableCourtGo, hcons, List.find?, hall]



/-- reserveCourt (live mode) with two other-text dialogs: both dismissed,
texts joined with "; " in the fatal PacException. -/
theorem reserveCourt_other_two (cfg : PacRunConfig) (env : PacEnv) (w1 w2 : ErrWin)
    (s : PacState)
    (htm : cfg.testMode = false) (hph : s.playerHasAlreadyReserved = false)
    (hcc : env.confirmClickFails = false) (hew : env.errWins = [w1, w2])
    (hd1 : w1.displayed = true) (hf1 : w1.dismissFails = false)
    (hc1 : isConflictText w1.text = false)
    (hd2 : w2.displayed = true) (hf2 : w2.dismissFails = false)
    (hc2 : isConflictText w2.text = false) :
    reserveCourt cfg env s
      = (.error (.pacException ("Unable to confirm reservation is good due to: "
          ++ (w1.text ++ "; " ++ w2.text))),
         s, [.confirmClick, .dismissError w1.text, .dismissError w2.text]) := by
  simp [reserveCourt, handleErrorWindow, pacBind_eq, pacPure_eq, getS, modifyS, emit,
    throwP, htm, hph, hcc, hew,
    handleErrWins_other_two env _ w1 w2 s hd1 hf1 hc1 hd2 hf2 hc2]

/-- One whole reservation pass with two other-text dialogs on the summary:
fatal, with both texts joined. -/
theorem reserveIteration_other_two (cfg : PacRunConfig) (env : PacEnv) (s : PacState)
    (cat : CourtAndTime) (p : User) (rest : List User) (w1 w2 : ErrWin)
    (htm : cfg.testMode = false)
    (hfind : findFirstAvailableCourt env.avail cfg.times cfg.courts cfg.requestDate = .ok cat)
    (hsb : env.selectBlockFails = false) (hsp : env.setParamsFails = false)
    (hq : s.playerQueue = p :: rest)
    (hk : env.keyInFails 0 = false) (hl : env.lookupResolves 0 = true)
    (hp : env.pickFromListFails = false)
    (hcc : env.confirmClickFails = false) (hew : env.errWins = [w1, w2])
    (hd1 : w1.displayed = true) (hf1 : w1.dismissFails = false)
    (hc1 : isConflictText w1.text = false)
    (hd2 : w2.displayed = true) (hf2 : w2.dismissFails = false)
    (hc2 : isConflictText w2.text = false) :
    reserveIteration cfg env s
      = (.error (.pacException ("Unable to confirm reservation is good due to: "
          ++ (w1.text ++ "; " ++ w2.text))),
         {s with resFormOpen := true, found := some cat, playerHasAlreadyReserved := false, playerQueue := rest, player2 := some p.nickname},
         [.clickBlock cat.court.name cat.startTime, .setParams, .keyIn p.username,
          .addName p.username, .confirmClick, .dismissError w1.text,
          .dismissError w2.text]) := by
  have hsel : selectAvailableCourt cfg env s
      = (.ok (), PacState.mk true s.logOutHrefSet (some cat) s.playerHasAlreadyReserved
          (p :: rest) s.player2, [.clickBlock cat.court.name cat.startTime]) := by
    simp [selectAvailableCourt, pacBind_eq, pacPure_eq, modifyS, emit, throwP,
      hfind, hsb, hq]
  have hset : setReservationParameters env
      (PacState.mk true s.logOutHrefSet (some cat) s.playerHasAlreadyReserved
        (p :: rest) s.player2)
      = (.ok (), PacState.mk true s.logOutHrefSet (some cat) s.playerHasAlreadyReserved
          (p :: rest) s.player2, [.setParams]) := by
    simp [setReservationParameters, pacBind_eq, pacPure_eq, emit, throwP, hsp]
  have hadd : addPlayer env
      (PacState.mk true s.logOutHrefSet (some cat) s.playerHasAlreadyReserved
        (p :: rest) s.player2)
      = (.ok (), PacState.mk true s.logOutHrefSet (some cat) false rest (some p.nickname),
         [.keyIn p.username, .addName p.username]) := by
    rw [addPlayer_pops_in_order env _ p rest rfl hk hl hp]
  have hres : reserveCourt cfg env
      (PacState.mk true s.logOutHrefSet (some cat) false rest (some p.nickname))
      = (.error (.pacException ("Unable to confirm reservation is good due to: "
          ++ (w1.text ++ "; " ++ w2.text))),
         PacState.mk true s.logOutHrefSet (some cat) false rest (some p.nickname),
         [.confirmClick, .dismissError w1.text, .dismissError w2.text]) := by
    rw [reserveCourt_other_two cfg env w1 w2 _ htm rfl hcc hew hd1 hf1 hc1 hd2 hf2 hc2]
  simp only [reserveIteration]
  rw [pacBind_ok _ _ _ _ _ _ hsel]
  rw [pacBind_ok _ _ _ _ _ _ hset]
  rw [pacBind_ok _ _ _ _ _ _ hadd]
  rw [hres]
  simp



/-- C5: when the reservation summary surfaces an error dialog classified as
a participant conflict, the dialog is dismissed, the in-flight attempt is
cancelled, the iteration ends normally with the retry flag set, and the
main loop restarts the workflow at selectAvailableCourt (the schedule-open
state) with the session untouched — no log-in and no date navigation in the
iteration's trace, and the retry is unbounded in the fuel parameter; a
dialog with any other text ends the run with a fatal PacException carrying
the dialog text verbatim, and with two such dialogs the texts are joined
with "; ". -/
theorem claimC5_error_dialog_handling :
    (∀ (cfg : PacRunConfig) (envs : Nat → PacEnv) (f i : Nat) (s : PacState)
        (cat : CourtAndTime) (p : User) (rest : List User) (w : ErrWin),
      cfg.testMode = false →
      findFirstAvailableCourt (envs i).avail cfg.times cfg.courts cfg.requestDate = .ok cat →
      (envs i).selectBlockFails = false → (envs i).setParamsFails = false →
      s.playerQueue = p :: rest →
      (envs i).keyInFails 0 = false → (envs i).lookupResolves 0 = true →
      (envs i).pickFromListFails = false → (envs i).confirmClickFails = false →
      (envs i).errWins = [w] → w.displayed = true → w.dismissFails = false →
      (envs i).cancelFails = false →
      ((isConflictText w.text = true →
        reserveIteration cfg (envs i) s
          = (.ok (),
             {s with resFormOpen := false, found := some cat, playerHasAlreadyReserved := true, playerQueue := rest, player2 := some p.nickname},
             [.clickBlock cat.court.name cat.startTime, .setParams, .keyIn p.username,
              .addName p.username, .confirmClick, .dismissError w.text, .cancelClick]) ∧
        ({s with resFormOpen := false, found := some cat, playerHasAlreadyReserved := true, playerQueue := rest, player2 := some p.nickname} : PacState).logOutHrefSet
          = s.logOutHrefSet ∧
        PacAction.logInAct
          ∉ [PacAction.clickBlock cat.court.name cat.startTime, .setParams,
             .keyIn p.username, .addName p.username, .confirmClick,
             .dismissError w.text, .cancelClick] ∧
        PacAction.advanceDay
          ∉ [PacAction.clickBlock cat.court.name cat.startTime, .setParams,
             .keyIn p.username, .addName p.username, .confirmClick,
             .dismissError w.text, .cancelClick] ∧
        mainReserveLoop cfg envs (f + 1) i s
          = ((mainReserveLoop cfg envs f (i + 1)
                {s with resFormOpen := false, found := some cat, playerHasAlreadyReserved := true, playerQueue := rest, player2 := some p.nickname}).1,
             (mainReserveLoop cfg envs f (i + 1)
                {s with resFormOpen := false, found := some cat, playerHasAlreadyReserved := true, playerQueue := rest, player2 := some p.nickname}).2.1,
             [PacAction.clickBlock cat.court.name cat.startTime, .setParams,
              .keyIn p.username, .addName p.username, .confirmClick,
              .dismissError w.text, .cancelClick]
               ++ (mainReserveLoop cfg envs f (i + 1)
                {s with resFormOpen := false, found := some cat, playerHasAlreadyReserved := true, playerQueue := rest, player2 := some p.nickname}).2.2)) ∧
      (isConflictText w.text = false →
        mainReserveLoop cfg envs (f + 1) i s
          = (.error (.pacException ("Unable to confirm reservation is good due to: " ++ w.text)),
             {s with resFormOpen := true, found := some cat, playerHasAlreadyReserved := false, playerQueue := rest, player2 := some p.nickname},
             [.clickBlock cat.court.name cat.startTime, .setParams, .keyIn p.username,
              .addName p.username, .confirmClick, .dismissError w.text]))))
    ∧ (∀ (cfg : PacRunConfig) (envs : Nat → PacEnv) (f i : Nat) (s : PacState)
        (cat : CourtAndTime) (p : User) (rest : List User) (w1 w2 : ErrWin),
      cfg.testMode = false →
      findFirstAvailableCourt (envs i).avail cfg.times cfg.courts cfg.requestDate = .ok cat →
      (envs i).selectBlockFails = false → (envs i).setParamsFails = false →
      s.playerQueue = p :: rest →
      (envs i).keyInFails 0 = false → (envs i).lookupResolves 0 = true →
      (envs i).pickFromListFails = false → (envs i).confirmClickFails = false →
      (envs i).errWins = [w1, w2] →
      w1.displayed = true → w1.dismissFails = false → isConflictText w1.text = false →
      w2.displayed = true → w2.dismissFails = false → isConflictText w2.text = false →
      mainReserveLoop cfg envs (f + 1) i s
        = (.error (.pacException ("Unable to confirm reservation is good due to: "
            ++ (w1.text ++ "; " ++ w2.text))),
           {s with resFormOpen := true, found := some cat, playerHasAlreadyReserved := false, playerQueue := rest, player2 := some p.nickname},
           [.clickBlock cat.court.name cat.startTime, .setParams, .keyIn p.username,
            .addName p.username, .confirmClick, .dismissError w1.text,
            .dismissError w2.text])) := by
  constructor
  · intro cfg envs f i s cat p rest w htm hfind hsb hsp hq hk hl hp hcc hew hd hf hcf
    constructor
    · intro hc
      have hit := reserveIteration_conflict cfg (envs i) s cat p rest w htm hfind hsb hsp
        hq hk hl hp hcc hew hd hf hc hcf
      refine ⟨hit, rfl, by simp, by simp, ?_⟩
      exact mainReserveLoop_retry_step cfg envs f i s _ _ hit (by simp)
    · intro hc
      have hit := reserveIteration_other cfg (envs i) s cat p rest w htm hfind hsb hsp
        hq hk hl hp hcc hew hd hf hc
      exact mainReserveLoop_error_step cfg envs f i s _ _ _ hit
  · intro cfg envs f i s cat p rest w1 w2 htm hfind hsb hsp hq hk hl hp hcc hew
      hd1 hf1 hc1 hd2 hf2 hc2
    have hit := reserveIteration_other_two cfg (envs i) s cat p rest w1 w2 htm hfind hsb
      hsp hq hk hl hp hcc hew hd1 hf1 hc1 hd2 hf2 hc2
    exact mainReserveLoop_error_step cfg envs f i s _ _ _ hit



/-- Witness for C5 on a concrete conflict dialog and a concrete pair of
other-text dialogs. -/
theorem claimC5_witness :
    isConflictText "This reservation requires 1 additional player" = true ∧
    reserveIteration (PacRunConfig.mk [⟨"Court #1", "178"⟩] [⟨⟨8, 0, 0⟩, 90⟩] 738391 false)
        (PacEnv.mk (fun _ _ => true) false false (fun _ => false) (fun _ => true) false false
          [ErrWin.mk true "This reservation requires 1 additional player" false] false false)
        (PacState.mk false true none false [⟨"Bec", "bec"⟩] none)
      = (.ok (),
         PacState.mk false true
           (some ⟨⟨"Court #1", "178"⟩, ⟨⟨8, 0, 0⟩, 90⟩,
             renderStartToken (combineSecs 738391 ⟨8, 0, 0⟩)⟩) true [] (some "Bec"),
         [.clickBlock "Court #1" (renderStartToken (combineSecs 738391 ⟨8, 0, 0⟩)),
          .setParams, .keyIn "bec", .addName "bec", .confirmClick,
          .dismissError "This reservation requires 1 additional player", .cancelClick]) ∧
    isConflictText "Court closed" = false ∧
    mainReserveLoop (PacRunConfig.mk [⟨"Court #1", "178"⟩] [⟨⟨8, 0, 0⟩, 90⟩] 738391 false)
        (fun _ => PacEnv.mk (fun _ _ => true) false false (fun _ => false) (fun _ => true)
          false false
          [ErrWin.mk true "Court closed" false, ErrWin.mk true "Rain expected" false]
          false false) 1 0
        (PacState.mk false true none false [⟨"Bec", "bec"⟩] none)
      = (.error (.pacException ("Unable to confirm reservation is good due to: "
          ++ ("Court closed" ++ "; " ++ "Rain expected"))),
         PacState.mk true true
           (some ⟨⟨"Court #1", "178"⟩, ⟨⟨8, 0, 0⟩, 90⟩,
             renderStartToken (combineSecs 738391 ⟨8, 0, 0⟩)⟩) false [] (some "Bec"),
         [.clickBlock "Court #1" (renderStartToken (combineSecs 738391 ⟨8, 0, 0⟩)),
          .setParams, .keyIn "bec", .addName "bec", .confirmClick,
          .dismissError "Court closed", .dismissError "Rain expected"]) := by
  have hfind := findFirst_all_avail_single ⟨⟨8, 0, 0⟩, 90⟩ ⟨"Court #1", "178"⟩ 738391
    (by norm_num)
  refine ⟨by decide, ?_, by decide, ?_⟩
  · exact ((claimC5_error_dialog_handling.1
      (PacRunConfig.mk [⟨"Court #1", "178"⟩] [⟨⟨8, 0, 0⟩, 90⟩] 738391 false)
      (fun _ => PacEnv.mk (fun _ _ => true) false false (fun _ => false) (fun _ => true)
        false false [ErrWin.mk true "This reservation requires 1 additional player" false]
        false false)
      0 0 (PacState.mk false true none false [⟨"Bec", "bec"⟩] none)
      ⟨⟨"Court #1", "178"⟩, ⟨⟨8, 0, 0⟩, 90⟩, renderStartToken (combineSecs 738391 ⟨8, 0, 0⟩)⟩
      ⟨"Bec", "bec"⟩ [] (ErrWin.mk true "This reservation requires 1 additional player" false)
      rfl hfind rfl rfl rfl rfl rfl rfl rfl rfl rfl rfl rfl).1 (by decide)).1
  · exact claimC5_error_dialog_handling.2
      (PacRunConfig.mk [⟨"Court #1", "178"⟩] [⟨⟨8, 0, 0⟩, 90⟩] 738391 false)
      (fun _ => PacEnv.mk (fun _ _ => true) false false (fun _ => false) (fun _ => true)
        false false
        [ErrWin.mk true "Court closed" false, ErrWin.mk true "Rain expected" false]
        false false)
      0 0 (PacState.mk false true none false [⟨"Bec", "bec"⟩] none)
      ⟨⟨"Court #1", "178"⟩, ⟨⟨8, 0, 0⟩, 90⟩, renderStartToken (combineSecs 738391 ⟨8, 0, 0⟩)⟩
      ⟨"Bec", "bec"⟩ [] (ErrWin.mk true "Court closed" false)
      (ErrWin.mk true "Rain expected" false)
      rfl hfind rfl rfl rfl rfl rfl rfl rfl rfl rfl rfl (by decide) rfl rfl (by decide)


end Pacium
